import Mathlib

/-!
# Pyramid viewer (`build/html/viewer.js`)

A shallow embedding of the browser-side pyramid viewer: its module-level
variables, the page elements it writes to, the browser event loop (pending
timers and outstanding metadata requests) and the functions `setPyramid`,
`changeObjective`, `requestPyramid` (with its `onreadystatechange` handler)
and `initOpenLayers`.

Modelling conventions.

* Magnifications and image sizes are exact rationals.
* `null`/`undefined` module variables are `none`.
* `document.getElementById` is a lookup in a map from ids to elements; an id may
  name no element, and two ids may name the same one. Writing a property of a
  missing element throws a `TypeError`, which ends the running function at that
  statement; the exception is logged as uncaught.
* `setPyramid` hands `setTimeout` a script text built by concatenation. A pending
  timer is that text, and firing it evaluates the text (`evalScript`): a text of
  the form of a call of `requestPyramid` with a plain string and a decimal number
  runs that call; a text whose string ends early at a quote of the id and leaves
  an unterminated string behind is a `SyntaxError`, and nothing runs. Any other
  text is a script brought in through the id; the model does not follow such
  scripts, their timer stays pending. Pending timers all have the same delay and
  fire in the order they were scheduled.
* The callback `onSetPyramid` is recorded by a number naming it; calling it is
  logged and does not touch the module variables.
* The OpenLayers calls of `initOpenLayers` succeed; what the library computes
  (maximal zoom of the tile grid, zoom after `fit`) is supplied by `Browser`.
* Observable actions are appended, oldest first, to the `effects` log.
-/

namespace PyramidViewer

/-! ## Data model -/

/-- Result of reading a property of a parsed JSON object: the property may be
missing (`undefined`), present with value `null`, or present with a value. -/
inductive JsField (α : Type) where
  | absent : JsField α
  | null : JsField α
  | value (v : α) : JsField α
  deriving DecidableEq, Repr

/-- The test `x == null` of JavaScript: true for `undefined` and for `null`. -/
def JsField.looseEqNull {α : Type} : JsField α → Bool
  | .absent => true
  | .null => true
  | .value _ => false

/-- The value of a property as a module variable: `undefined` and `null` are `none`. -/
def JsField.toOption {α : Type} : JsField α → Option α
  | .absent => none
  | .null => none
  | .value v => some v

/-- The parsed reply of `/pp-information`, as far as the viewer reads it. -/
structure PyramidInfo where
  zeroLevelDimX : ℚ
  zeroLevelDimY : ℚ
  magnification : JsField ℚ
  deriving DecidableEq, Repr

/-- An `ol.proj.Projection`. -/
structure OlProjection where
  code : String
  units : String
  extent : List ℚ
  deriving DecidableEq, Repr

/-- An `ol.source.Zoomify`. -/
structure OlSource where
  url : String
  size : List ℚ
  crossOrigin : String
  deriving DecidableEq, Repr

/-- The tile grid of the Zoomify source; `maxZoom` is what `getMaxZoom()` returns. -/
structure OlTileGrid where
  maxZoom : Int
  deriving DecidableEq, Repr

/-- An `ol.View`; `zoom` is the zoom last given to it by `fit` or `setZoom`. -/
structure OlView where
  projection : OlProjection
  center : List ℚ
  maxZoom : Int
  extent : List ℚ
  zoom : ℚ
  deriving DecidableEq, Repr

/-- An `ol.Map`; its view is the object held in the variable `olView`. -/
structure OlMap where
  source : OlSource
  overviewProjection : OlProjection
  target : Option String
  deriving DecidableEq, Repr

/-- A page element: the two properties the viewer writes and the width it reads. -/
structure Element where
  innerHTML : String
  visibility : String
  offsetWidth : Nat
  deriving DecidableEq, Repr

/-- Observable actions of the viewer. -/
inductive Effect where
  | alert (message : String)
  | setTimeout (code : String) (delay : Nat)
  | onSetPyramid (callback : Nat)
  | xhrSend (url : String)
  | initOpenLayers
  | setZoom (level : Int)
  | uncaught (error : String)
  deriving DecidableEq, Repr

/-- The module-level variables of `viewer.js`, the page, and the event loop. -/
structure World where
  useSSL : Bool
  host : Option String
  mapTagName : Option String
  macroTagName : Option String
  informationTagName : Option String
  controlTagName : Option String
  zeroLevelObjective : Option ℚ
  openLayersMap : Option OlMap
  olView : Option OlView
  olTileGrid : Option OlTileGrid
  pyramidErrorMessage : Option String
  currentPyramidInfo : Option PyramidInfo
  onSetPyramid : Option Nat
  changingPyramid : Bool
  currentPyramidId : Option String
  currentPort : Option Nat
  urlStart : Option String
  dom : String → Option Element
  timers : List String
  requests : List String
  effects : List Effect

/-- What the browser and the OpenLayers library compute for the viewer. -/
structure Browser where
  numberToString : ℚ → String
  zoomifyMaxZoom : ℚ → ℚ → Int
  fitZoom : List ℚ → ℚ

/-- The state of an `XMLHttpRequest` when `onreadystatechange` fires: `parsed` is
the result of `JSON.parse(responseText)` (`none` when it throws) and `pretty` the
text `JSON.stringify` gives back for it. -/
structure XhrState where
  readyState : Nat
  status : Nat
  parsed : Option PyramidInfo
  pretty : String
  deriving DecidableEq, Repr

/-- The constant `DEFAULT_OBJECTIVE`. -/
def DEFAULT_OBJECTIVE : ℚ := 40

/-- The value of all module variables when the script has been loaded. -/
def initialWorld (useSSL : Bool) (dom : String → Option Element) : World where
  useSSL := useSSL
  host := none
  mapTagName := none
  macroTagName := none
  informationTagName := none
  controlTagName := none
  zeroLevelObjective := none
  openLayersMap := none
  olView := none
  olTileGrid := none
  pyramidErrorMessage := none
  currentPyramidInfo := none
  onSetPyramid := none
  changingPyramid := false
  currentPyramidId := none
  currentPort := none
  urlStart := none
  dom := dom
  timers := []
  requests := []
  effects := []

/-! ## JavaScript conversions and page writes -/

/-- Conversion of a possibly-null number in a comparison or division: `null` is `0`. -/
def toNumber : Option ℚ → ℚ
  | none => 0
  | some q => q

/-- Conversion of a possibly-null string in a concatenation or an id lookup. -/
def toJsString : Option String → String
  | none => "null"
  | some s => s

/-- An exception on its way out of a function: its name and the state at the
statement that threw. -/
structure Thrown where
  error : String
  state : World

/-- The assignment `document.getElementById(id).innerHTML = html`. -/
def setInnerHTML (s : World) (id : String) (html : String) : Except Thrown World :=
  match s.dom id with
  | none => Except.error ⟨"TypeError", s⟩
  | some element =>
    Except.ok { s with dom := Function.update s.dom id (some { element with innerHTML := html }) }

/-- The assignment `document.getElementById(id).style.visibility = v`. -/
def setVisibility (s : World) (id : String) (v : String) : Except Thrown World :=
  match s.dom id with
  | none => Except.error ⟨"TypeError", s⟩
  | some element =>
    Except.ok { s with dom := Function.update s.dom id (some { element with visibility := v }) }

/-- The statement `if (tagName != null) { document.getElementById(tagName).innerHTML = html; }`. -/
def setInnerHTMLIfNamed (s : World) (tagName : Option String) (html : String) :
    Except Thrown World :=
  match tagName with
  | none => Except.ok s
  | some tag => setInnerHTML s tag html

/-- The statement
`if (tagName != null) { document.getElementById(tagName).style.visibility = v; }`. -/
def setVisibilityIfNamed (s : World) (tagName : Option String) (v : String) :
    Except Thrown World :=
  match tagName with
  | none => Except.ok s
  | some tag => setVisibility s tag v

/-- Appends an observable action to the log. -/
def emit (s : World) (e : Effect) : World :=
  { s with effects := s.effects ++ [e] }

/-- The state in which a function called by the page or by the event loop leaves
the viewer: the state it returns, or the state at the statement that threw, with
the uncaught exception logged. -/
def settle : Except Thrown World → World
  | Except.ok s => s
  | Except.error thrown => emit thrown.state (Effect.uncaught thrown.error)

/-! ## `inititializeViewer` -/

/-- The function `inititializeViewer`: six assignments. -/
def inititializeViewer (s : World) (newHost newMapTagName newMacroTagName
    newInformationTagName newControlTagName : Option String)
    (newOnSetPyramid : Option Nat) : World :=
  { s with
    host := newHost
    mapTagName := newMapTagName
    macroTagName := newMacroTagName
    informationTagName := newInformationTagName
    controlTagName := newControlTagName
    onSetPyramid := newOnSetPyramid }

/-! ## `setPyramid` -/

/-- The script text `setPyramid` hands to `setTimeout`. -/
def timerText (newPyramidId : String) (newPort : Nat) : String :=
  "requestPyramid('" ++ newPyramidId ++ "', " ++ toString newPort ++ ")"

/-- The call `setTimeout(code, delay)`. -/
def setTimeout (s : World) (code : String) (delay : Nat) : World :=
  emit { s with timers := s.timers ++ [code] } (Effect.setTimeout code delay)

/-- The function `setPyramid`. -/
def setPyramid (s : World) (newPyramidId : String) (newPort : Nat) : World :=
  if s.changingPyramid then
    s
  else
    settle do
      let s1 : World := { s with changingPyramid := true, pyramidErrorMessage := none }
      let s2 : World ←
        match s1.openLayersMap with
        | none => Except.ok s1
        | some _ => do
          let s3 : World :=
            { s1 with openLayersMap := none, olView := none, olTileGrid := none,
                      currentPyramidInfo := none }
          let s4 ← setInnerHTML s3 (toJsString s3.mapTagName) ""
          let s5 ← setVisibilityIfNamed s4 s4.controlTagName "hidden"
          let s6 ← setVisibilityIfNamed s5 s5.macroTagName "hidden"
          setInnerHTMLIfNamed s6 s6.informationTagName
            ("Changing pyramid to " ++ newPyramidId ++ "...")
      Except.ok (setTimeout s2 (timerText newPyramidId newPort) 100)

/-! ## `changeObjective` -/

/-- The local variables `objective` and `level` of `changeObjective`. -/
structure LoopState where
  objective : ℚ
  level : Int
  deriving DecidableEq, Repr

/-- The loop `while (objective > newObjective && level > 0) { objective /= 2; level--; }`. -/
def halvingLoop (newObjective : ℚ) (objective : ℚ) (level : Int) : LoopState :=
  if objective > newObjective ∧ level > 0 then
    halvingLoop newObjective (objective / 2) (level - 1)
  else
    ⟨objective, level⟩
termination_by level.toNat
decreasing_by omega

/-- The same loop, recording the values of `objective` and `level` at every
evaluation of the loop condition, the first one included. -/
def halvingTrace (newObjective : ℚ) (objective : ℚ) (level : Int) : List LoopState :=
  if objective > newObjective ∧ level > 0 then
    ⟨objective, level⟩ :: halvingTrace newObjective (objective / 2) (level - 1)
  else
    [⟨objective, level⟩]
termination_by level.toNat
decreasing_by omega

/-- The text of the alert of `changeObjective`. -/
def noMagnificationMessage (b : Browser) (newObjective : ℚ) : String :=
  "No magnification " ++ b.numberToString newObjective ++ " at this image!"

/-- The function `changeObjective`. Calling a method of a `null` variable throws;
the exception is logged and the state is left as it was. -/
def changeObjective (b : Browser) (s : World) (newObjective : ℚ) : World :=
  match s.openLayersMap with
  | none => s
  | some _ =>
    if toNumber s.zeroLevelObjective < newObjective then
      emit s (Effect.alert (noMagnificationMessage b newObjective))
    else
      match s.olTileGrid with
      | none => emit s (Effect.uncaught "TypeError")
      | some grid =>
        let r := halvingLoop newObjective (toNumber s.zeroLevelObjective) grid.maxZoom
        match s.olView with
        | none => emit s (Effect.uncaught "TypeError")
        | some view =>
          emit { s with olView := some { view with zoom := (r.level : ℚ) } }
            (Effect.setZoom r.level)

/-! ## `requestPyramid` and its completion handler -/

/-- The protocol part of the URLs, chosen by `useSSL`. -/
def scheme (useSSL : Bool) : String :=
  if useSSL then "https://" else "http://"

/-- Conversion, in a concatenation, of a variable that is `undefined` until assigned. -/
def toJsStringUndefined : Option String → String
  | none => "undefined"
  | some s => s

/-- The body of `requestPyramid` up to and including `xhr.send()`: the request is
added to the outstanding ones; installing the handler is part of the event loop. -/
def requestPyramid (s : World) (newPyramidId : String) (newPort : Nat) : World :=
  let s1 : World := { s with currentPyramidId := some newPyramidId, currentPort := some newPort }
  let s2 : World :=
    match s1.onSetPyramid with
    | none => s1
    | some callback => emit s1 (Effect.onSetPyramid callback)
  let start := scheme s2.useSSL ++ toJsString s2.host ++ ":" ++ toString newPort ++ "/pp-"
  let s3 : World := { s2 with urlStart := some start }
  let url := start ++ "information?pyramidId=" ++ newPyramidId
  emit { s3 with requests := s3.requests ++ [url] } (Effect.xhrSend url)

/-- The error text shown when the metadata request fails. -/
def errorMessage : String :=
  "Error: cannot read pyramid information, maybe Java server not started or replies too slowly"

/-- The function `initOpenLayers`. -/
def initOpenLayers (b : Browser) (s : World) : Except Thrown World :=
  match s.currentPyramidInfo with
  | none => Except.error ⟨"TypeError", s⟩
  | some info => do
    let imgWidth := info.zeroLevelDimX
    let imgHeight := info.zeroLevelDimY
    let imgCenter := [imgWidth / 2, -imgHeight / 2]
    let proj : OlProjection :=
      { code := "ZOOMIFY", units := "pixels", extent := [0, 0, imgWidth, imgHeight] }
    let source : OlSource :=
      { url := scheme s.useSSL ++ toJsString s.host ++ ":"
          ++ toJsStringUndefined (s.currentPort.map toString)
          ++ "/pp-zoomify/" ++ toJsStringUndefined s.currentPyramidId ++ "/"
        size := [imgWidth, imgHeight]
        crossOrigin := "anonymous" }
    let grid : OlTileGrid := { maxZoom := b.zoomifyMaxZoom imgWidth imgHeight }
    let extent := [0, -imgHeight, imgWidth, 0]
    let view : OlView :=
      { projection := proj, center := imgCenter, maxZoom := grid.maxZoom, extent := extent,
        zoom := b.fitZoom extent }
    let map : OlMap :=
      { source := source, overviewProjection := proj, target := s.mapTagName }
    let s1 : World :=
      emit { s with olTileGrid := some grid, olView := some view, openLayersMap := some map }
        Effect.initOpenLayers
    let s2 ← setVisibilityIfNamed s1 s1.controlTagName "visible"
    match s2.macroTagName with
    | none => Except.ok s2
    | some tag => do
      let s3 ← setVisibility s2 tag "visible"
      let width : Nat :=
        match s3.dom tag with
        | none => 0
        | some macroTag => macroTag.offsetWidth
      setInnerHTML s3 tag
        ("<img src=\"" ++ scheme s3.useSSL ++ toJsString s3.host ++ ":"
          ++ toJsStringUndefined (s3.currentPort.map toString)
          ++ "/pp-read-special-image?pyramidId=" ++ toJsStringUndefined s3.currentPyramidId
          ++ "&specialImageName=WHOLE_SLIDE&width=" ++ toString width
          ++ "\"/>")

/-- The final `if (informationTagName != null) ...innerHTML = result` of the handler. -/
def showInformation (s : World) (result : String) : Except Thrown World :=
  setInnerHTMLIfNamed s s.informationTagName result

/-- The handler `xhr.onreadystatechange`. -/
def onReadyStateChange (b : Browser) (s : World) (xhr : XhrState) : World :=
  if xhr.readyState ≠ 4 then
    s
  else
    settle do
      let s1 : World := { s with changingPyramid := false }
      if xhr.status ≠ 200 then
        let result := errorMessage
        let s2 : World :=
          { s1 with pyramidErrorMessage := some result, currentPyramidInfo := none }
        showInformation s2 result
      else
        match xhr.parsed with
        | none => Except.error ⟨"SyntaxError", s1⟩
        | some info => do
          let s2 : World := { s1 with currentPyramidInfo := some info }
          let result :=
            "<p>Detected pyramid information:</p>" ++ "<pre>" ++ xhr.pretty ++ "</pre>"
          let objective : Option ℚ :=
            if info.magnification.looseEqNull then some DEFAULT_OBJECTIVE
            else info.magnification.toOption
          let s3 : World := { s2 with zeroLevelObjective := objective }
          let s4 ← initOpenLayers b s3
          showInformation s4 result

/-! ## Evaluation of the timer text -/

/-- The character that opens and closes the string of the timer text. -/
def quote : Char := Char.ofNat 39

/-- Characters that stand for themselves inside a quoted string of a script:
all but the quote, the backslash and the line terminators. -/
def isPlainChar (c : Char) : Bool :=
  c != quote && c != Char.ofNat 92 && c != Char.ofNat 10 && c != Char.ofNat 13
    && c != Char.ofNat 8232 && c != Char.ofNat 8233

/-- Whether an id stands for itself between the quotes of the timer text. -/
def isPlainId (pyramidId : String) : Bool :=
  pyramidId.data.all isPlainChar

/-- The text left when the given start is taken off, if the text starts with it. -/
def stripStart : List Char → List Char → Option (List Char)
  | [], text => some text
  | _ :: _, [] => none
  | p :: ps, c :: cs => if p = c then stripStart ps cs else none

/-- The number written by decimal digits. -/
def digitsValue (digits : List Char) : Nat :=
  digits.foldl (fun acc c => 10 * acc + (c.toNat - 48)) 0

/-- What follows the closing quote of the first argument when the text is a call
with a number as second argument: a comma, a blank, the decimal digits of a
number as `toString` writes them, and the closing bracket. -/
def secondArgument (rest : List Char) : Option Nat :=
  match rest with
  | c1 :: c2 :: tail =>
    if c1 = Char.ofNat 44 ∧ c2 = Char.ofNat 32 ∧ tail.getLast? = some (Char.ofNat 41)
        ∧ (toString (digitsValue tail.dropLast)).data = tail.dropLast then
      some (digitsValue tail.dropLast)
    else
      none
  | _ => none

/-- Whether what follows the closing quote of the first string is letters and
digits and then a quote that opens a string which is never closed. -/
def unterminatedString (rest : List Char) : Bool :=
  match rest.dropWhile Char.isAlphanum with
  | [] => false
  | c :: tail => c == quote && tail.all (fun d => d != quote)

/-- What evaluating a script text does. -/
inductive ScriptOutcome where
  | call (pyramidId : String) (port : Nat)
  | syntaxError
  | other
  deriving DecidableEq, Repr

/-- Evaluation of a timer text by the browser, for the texts `setPyramid` can build. -/
def evalScript (code : String) : ScriptOutcome :=
  match stripStart "requestPyramid('".data code.data with
  | none => ScriptOutcome.other
  | some chars =>
    match chars.dropWhile isPlainChar with
    | [] => ScriptOutcome.other
    | c :: rest =>
      if c = quote then
        match secondArgument rest with
        | some port => ScriptOutcome.call (String.mk (chars.takeWhile isPlainChar)) port
        | none =>
          if unterminatedString rest then ScriptOutcome.syntaxError else ScriptOutcome.other
      else
        ScriptOutcome.other

/-! ## The event loop -/

/-- What can happen to the viewer: a call of one of its three public functions by
the page, the firing of the oldest pending timer, or a state change of the
outstanding request number `index`. -/
inductive Event where
  | inititializeViewer (newHost newMapTagName newMacroTagName newInformationTagName
      newControlTagName : Option String) (newOnSetPyramid : Option Nat)
  | setPyramid (newPyramidId : String) (newPort : Nat)
  | changeObjective (newObjective : ℚ)
  | timeout
  | readyStateChange (index : Nat) (xhr : XhrState)

/-- One turn of the event loop. A timer is removed when it fires, and its text is
evaluated; a request is removed when it reaches `readyState` 4. Events that cannot
happen (no timer pending, no such request) leave the state as it is, and so does
the firing of a timer whose text the model does not follow. -/
def step (b : Browser) (s : World) : Event → World
  | .inititializeViewer h m mc i c f => inititializeViewer s h m mc i c f
  | .setPyramid newPyramidId newPort => setPyramid s newPyramidId newPort
  | .changeObjective newObjective => changeObjective b s newObjective
  | .timeout =>
    match s.timers with
    | [] => s
    | code :: rest =>
      match evalScript code with
      | ScriptOutcome.call newPyramidId newPort =>
        requestPyramid { s with timers := rest } newPyramidId newPort
      | ScriptOutcome.syntaxError =>
        emit { s with timers := rest } (Effect.uncaught "SyntaxError")
      | ScriptOutcome.other => s
  | .readyStateChange index xhr =>
    if index < s.requests.length then
      let s1 := onReadyStateChange b s xhr
      if xhr.readyState = 4 then { s1 with requests := s1.requests.eraseIdx index } else s1
    else
      s

/-- The state after a sequence of events. -/
def run (b : Browser) (s : World) (events : List Event) : World :=
  events.foldl (step b) s

/-- The number of loads in progress: pending timers and outstanding requests. -/
def loads (s : World) : Nat :=
  s.timers.length + s.requests.length

/-! ## Vocabulary of the properties -/

/-- The number of executions of the loop body: every evaluation of the loop
condition but the last, failing, one is followed by one execution. -/
def halvingIterations (newObjective : ℚ) (objective : ℚ) (level : Int) : Nat :=
  (halvingTrace newObjective objective level).length - 1

/-- A pyramid is loaded: the map, its view and its tile grid exist, the tile grid
has maximal zoom `M` and the zero-level objective is `z`. -/
structure Loaded (s : World) (z : ℚ) (M : Int) : Prop where
  map : s.openLayersMap ≠ none
  view : s.olView ≠ none
  grid : s.olTileGrid = some ⟨M⟩
  objective : s.zeroLevelObjective = some z

/-- The zoom of the current view, when there is one. -/
def currentZoom (s : World) : Option ℚ :=
  s.olView.map (fun v => v.zoom)

/-- The magnification shown at zoom level `L` of a pyramid with zero-level
objective `z` and maximal zoom `M`: one halving for every level below `M`. -/
def impliedObjective (z : ℚ) (M L : Int) : ℚ :=
  z / 2 ^ (M - L).toNat

/-- Whether an action is a call of `setTimeout`. -/
def Effect.isSetTimeout : Effect → Bool
  | .setTimeout _ _ => true
  | _ => false

/-- The actions logged after the last call of `setTimeout`, that is, since the
last `setPyramid` call that scheduled its deferred request. -/
def sinceLastSetTimeout (effects : List Effect) : List Effect :=
  (effects.reverse.takeWhile (fun e => !e.isSetTimeout)).reverse

/-- The text of an element of the page, when the id names one. -/
def innerHTMLOf (s : World) (id : String) : Option String :=
  (s.dom id).map (fun element => element.innerHTML)

/-- The visibility of an element of the page, when the id names one. -/
def visibilityOf (s : World) (id : String) : Option String :=
  (s.dom id).map (fun element => element.visibility)

/-- The ids the viewer has been given name elements of the page: the map
container, and each of the three panels that is configured. -/
structure ElementsExist (s : World) : Prop where
  map : (s.dom (toJsString s.mapTagName)).isSome = true
  control : ∀ tag, s.controlTagName = some tag → (s.dom tag).isSome = true
  macroPanel : ∀ tag, s.macroTagName = some tag → (s.dom tag).isSome = true
  information : ∀ tag, s.informationTagName = some tag → (s.dom tag).isSome = true

/-- The second state differs from the first in the page only. -/
def OnlyPage (s s' : World) : Prop :=
  ∃ dom, s' = { s with dom := dom }

/-- The second state differs from the first in the page and the log only. -/
def SameVariables (s s' : World) : Prop :=
  ∃ dom effects, s' = { s with dom := dom, effects := effects }

/-- A result of statements that only write to the page, started in state `s`. -/
def PageOnly (s : World) : Except Thrown World → Prop
  | Except.ok s' => OnlyPage s s'
  | Except.error thrown => OnlyPage s thrown.state

/-- What holds in every state the viewer can reach. -/
structure Consistent (s : World) : Prop where
  atMostOne : loads s ≤ 1
  flag : loads s = 1 → s.changingPyramid = true
  noMap : s.openLayersMap = none →
    s.olView = none ∧ s.olTileGrid = none ∧ s.currentPyramidInfo = none
  hasMap : s.openLayersMap ≠ none →
    s.olView ≠ none ∧ s.olTileGrid ≠ none ∧ s.zeroLevelObjective ≠ none
  loading : s.changingPyramid = true → s.openLayersMap = none
  noInit : loads s = 1 → Effect.initOpenLayers ∉ sinceLastSetTimeout s.effects

/-- The state reached from the freshly loaded script by a sequence of events. -/
def reached (b : Browser) (useSSL : Bool) (dom : String → Option Element)
    (events : List Event) : World :=
  run b (initialWorld useSSL dom) events

/-- An example browser: integers are printed in decimal, every tile grid has
maximal zoom `M`, and `fit` leaves the view at zoom 0. -/
def exampleBrowser (M : Int) : Browser where
  numberToString := fun q => toString q.num
  zoomifyMaxZoom := fun _ _ => M
  fitZoom := fun _ => 0

/-- An example page: every id names an element, empty and visible. -/
def examplePage : String → Option Element :=
  fun _ => some ⟨"", "visible", 0⟩

/-- The page configures the viewer, asks for pyramid `p` on port 80, and the
deferred request is sent. -/
def requestedEvents : List Event :=
  [Event.inititializeViewer (some "localhost") (some "map") (some "macro") (some "info")
     (some "control") none,
   Event.setPyramid "p" 80,
   Event.timeout]

/-- The events of `requestedEvents`, followed by a reply with status 200 whose body
carries the magnification `z`. -/
def loadedEvents (z : ℚ) : List Event :=
  requestedEvents ++ [Event.readyStateChange 0 ⟨4, 200, some ⟨1000, 2000, JsField.value z⟩, ""⟩]

/-- A state with a loaded pyramid of zero-level objective `z` and maximal zoom `M`. -/
def loadedWorld (z : ℚ) (M : Int) : World :=
  reached (exampleBrowser M) false examplePage (loadedEvents z)

/-- A state in which a load is in progress. -/
def loadingWorld : World :=
  reached (exampleBrowser 0) false examplePage requestedEvents

/-- A reply with status 404. -/
def notFound : XhrState :=
  ⟨4, 404, none, ""⟩

/-- The page configures the viewer and asks for the pyramid whose id is `a`, a
quote, `b`; then the timer fires. -/
def quoteEvents : List Event :=
  [Event.inititializeViewer (some "localhost") (some "map") (some "macro") (some "info")
     (some "control") none,
   Event.setPyramid "a'b" 80,
   Event.timeout]

/-! # Theorems -/

/-! ## Exceptions and page writes -/

theorem bind_ok (s : World) (f : World → Except Thrown World) :
    (Except.ok s >>= f) = f s := rfl

theorem bind_error (thrown : Thrown) (f : World → Except Thrown World) :
    ((Except.error thrown : Except Thrown World) >>= f) = Except.error thrown := rfl

theorem onlyPage_refl (s : World) : OnlyPage s s := ⟨s.dom, rfl⟩

theorem onlyPage_trans {s s' s'' : World} (h1 : OnlyPage s s') (h2 : OnlyPage s' s'') :
    OnlyPage s s'' := by
  obtain ⟨d1, rfl⟩ := h1
  obtain ⟨d2, rfl⟩ := h2
  exact ⟨d2, rfl⟩

theorem onlyPage_sameVariables {s s' : World} (h : OnlyPage s s') : SameVariables s s' := by
  obtain ⟨d, rfl⟩ := h
  exact ⟨d, s.effects, rfl⟩

theorem sameVariables_emit {s s' : World} (h : SameVariables s s') (e : Effect) :
    SameVariables s (emit s' e) := by
  obtain ⟨d, l, rfl⟩ := h
  exact ⟨d, l ++ [e], rfl⟩

theorem sameVariables_trans {s s' s'' : World} (h1 : SameVariables s s')
    (h2 : SameVariables s' s'') : SameVariables s s'' := by
  obtain ⟨d1, l1, rfl⟩ := h1
  obtain ⟨d2, l2, rfl⟩ := h2
  exact ⟨d2, l2, rfl⟩

theorem setInnerHTML_pageOnly (s : World) (id html : String) :
    PageOnly s (setInnerHTML s id html) := by
  unfold setInnerHTML
  split
  · exact onlyPage_refl s
  · exact ⟨_, rfl⟩

theorem setVisibility_pageOnly (s : World) (id v : String) :
    PageOnly s (setVisibility s id v) := by
  unfold setVisibility
  split
  · exact onlyPage_refl s
  · exact ⟨_, rfl⟩

theorem setInnerHTMLIfNamed_pageOnly (s : World) (tagName : Option String) (html : String) :
    PageOnly s (setInnerHTMLIfNamed s tagName html) := by
  cases tagName with
  | none => exact onlyPage_refl s
  | some tag => exact setInnerHTML_pageOnly s tag html

theorem setVisibilityIfNamed_pageOnly (s : World) (tagName : Option String) (v : String) :
    PageOnly s (setVisibilityIfNamed s tagName v) := by
  cases tagName with
  | none => exact onlyPage_refl s
  | some tag => exact setVisibility_pageOnly s tag v

theorem pageOnly_bind {s : World} {r : Except Thrown World} {f : World → Except Thrown World}
    (h : PageOnly s r) (hf : ∀ s', OnlyPage s s' → PageOnly s' (f s')) :
    PageOnly s (r >>= f) := by
  cases r with
  | error thrown => exact h
  | ok s' =>
    rw [bind_ok]
    have h' : OnlyPage s s' := h
    have := hf s' h'
    cases hr : f s' with
    | error thrown => rw [hr] at this; exact onlyPage_trans h' this
    | ok s'' => rw [hr] at this; exact onlyPage_trans h' this

/-- After statements that only write to the page, every variable is as before,
whether they ran to the end or threw. -/
theorem pageOnly_settle {s : World} {r : Except Thrown World} (h : PageOnly s r) :
    SameVariables s (settle r) := by
  cases r with
  | error thrown => exact sameVariables_emit (onlyPage_sameVariables h) _
  | ok s' => exact onlyPage_sameVariables h

/-- A write of `innerHTML` to an element that exists. -/
theorem setInnerHTML_ok (s : World) (id html : String) (h : (s.dom id).isSome = true) :
    ∃ s', setInnerHTML s id html = Except.ok s' ∧ OnlyPage s s' ∧
      (∀ id', (s'.dom id').isSome = (s.dom id').isSome) ∧
      innerHTMLOf s' id = some html ∧
      (∀ id', id' ≠ id → innerHTMLOf s' id' = innerHTMLOf s id') ∧
      (∀ id', visibilityOf s' id' = visibilityOf s id') := by
  obtain ⟨element, hel⟩ := Option.isSome_iff_exists.mp h
  refine ⟨{ s with dom := Function.update s.dom id (some { element with innerHTML := html }) },
    by simp [setInnerHTML, hel], ⟨_, rfl⟩, ?_, ?_, ?_, ?_⟩
  · intro id'
    by_cases e : id' = id
    · subst e; simp [hel]
    · simp [Function.update_apply, e]
  · simp [innerHTMLOf]
  · intro id' e
    simp [innerHTMLOf, Function.update_apply, e]
  · intro id'
    by_cases e : id' = id
    · subst e; simp [visibilityOf, hel]
    · simp [visibilityOf, Function.update_apply, e]

/-- A write of `visibility` to an element that exists. -/
theorem setVisibility_ok (s : World) (id v : String) (h : (s.dom id).isSome = true) :
    ∃ s', setVisibility s id v = Except.ok s' ∧ OnlyPage s s' ∧
      (∀ id', (s'.dom id').isSome = (s.dom id').isSome) ∧
      visibilityOf s' id = some v ∧
      (∀ id', visibilityOf s id' = some v → visibilityOf s' id' = some v) ∧
      (∀ id', innerHTMLOf s' id' = innerHTMLOf s id') := by
  obtain ⟨element, hel⟩ := Option.isSome_iff_exists.mp h
  refine ⟨{ s with dom := Function.update s.dom id (some { element with visibility := v }) },
    by simp [setVisibility, hel], ⟨_, rfl⟩, ?_, ?_, ?_, ?_⟩
  · intro id'
    by_cases e : id' = id
    · subst e; simp [hel]
    · simp [Function.update_apply, e]
  · simp [visibilityOf]
  · intro id' hv
    by_cases e : id' = id
    · subst e; simp [visibilityOf]
    · simpa [visibilityOf, Function.update_apply, e] using hv
  · intro id'
    by_cases e : id' = id
    · subst e; simp [innerHTMLOf, hel]
    · simp [innerHTMLOf, Function.update_apply, e]

/-- A conditional write of `innerHTML`, the element existing when it is named. -/
theorem setInnerHTMLIfNamed_ok (s : World) (tagName : Option String) (html : String)
    (h : ∀ tag, tagName = some tag → (s.dom tag).isSome = true) :
    ∃ s', setInnerHTMLIfNamed s tagName html = Except.ok s' ∧ OnlyPage s s' ∧
      (∀ id', (s'.dom id').isSome = (s.dom id').isSome) ∧
      (∀ tag, tagName = some tag → innerHTMLOf s' tag = some html) ∧
      (∀ id', tagName ≠ some id' → innerHTMLOf s' id' = innerHTMLOf s id') ∧
      (∀ id', visibilityOf s' id' = visibilityOf s id') ∧
      (tagName = none → s' = s) := by
  cases tagName with
  | none =>
    exact ⟨s, rfl, onlyPage_refl s, fun _ => rfl, fun _ e => by simp at e, fun _ _ => rfl,
      fun _ => rfl, fun _ => rfl⟩
  | some tag =>
    obtain ⟨s', e1, e2, e3, e4, e5, e6⟩ := setInnerHTML_ok s tag html (h tag rfl)
    refine ⟨s', e1, e2, e3, ?_, ?_, e6, fun e => by simp at e⟩
    · intro tag' e; cases e; exact e4
    · intro id' e
      exact e5 id' (fun e' => e (by rw [e']))

/-- A conditional write of `visibility`, the element existing when it is named. -/
theorem setVisibilityIfNamed_ok (s : World) (tagName : Option String) (v : String)
    (h : ∀ tag, tagName = some tag → (s.dom tag).isSome = true) :
    ∃ s', setVisibilityIfNamed s tagName v = Except.ok s' ∧ OnlyPage s s' ∧
      (∀ id', (s'.dom id').isSome = (s.dom id').isSome) ∧
      (∀ tag, tagName = some tag → visibilityOf s' tag = some v) ∧
      (∀ id', visibilityOf s id' = some v → visibilityOf s' id' = some v) ∧
      (∀ id', innerHTMLOf s' id' = innerHTMLOf s id') ∧
      (tagName = none → s' = s) := by
  cases tagName with
  | none =>
    exact ⟨s, rfl, onlyPage_refl s, fun _ => rfl, fun _ e => by simp at e, fun _ hv => hv,
      fun _ => rfl, fun _ => rfl⟩
  | some tag =>
    obtain ⟨s', e1, e2, e3, e4, e5, e6⟩ := setVisibility_ok s tag v (h tag rfl)
    refine ⟨s', e1, e2, e3, ?_, e5, e6, fun e => by simp at e⟩
    intro tag' e; cases e; exact e4

/-! ## The timer text -/

theorem stripStart_append (start rest : List Char) :
    stripStart start (start ++ rest) = some rest := by
  induction start with
  | nil => cases rest <;> rfl
  | cons p ps ih => simp [stripStart, ih]

theorem digitChar_value (d : Nat) (h : d < 10) : (Nat.digitChar d).toNat - 48 = d := by
  interval_cases d <;> rfl

theorem foldl_toDigitsCore (fuel : Nat) :
    ∀ (n : Nat) (digits : List Char), n < fuel →
      (Nat.toDigitsCore 10 fuel n digits).foldl (fun acc c => 10 * acc + (c.toNat - 48)) 0
        = digits.foldl (fun acc c => 10 * acc + (c.toNat - 48)) n := by
  induction fuel with
  | zero => intro n digits h; omega
  | succ fuel ih =>
    intro n digits h
    have hd := digitChar_value (n % 10) (Nat.mod_lt n (by decide))
    by_cases h0 : n / 10 = 0
    · have hn : n % 10 = n := Nat.mod_eq_of_lt (by omega)
      rw [hn] at hd
      simp only [Nat.toDigitsCore, h0, if_true, List.foldl_cons, hn, hd]
      simp [hd]
    · have e : 10 * (n / 10) + n % 10 = n := Nat.div_add_mod n 10
      simp only [Nat.toDigitsCore, h0, if_false]
      rw [ih (n / 10) _ (by omega)]
      simp only [List.foldl_cons, hd, e]

/-- The decimal digits `toString` writes for a number give the number back. -/
theorem digitsValue_toString (n : Nat) : digitsValue (toString n).data = n := by
  have e : (toString n).data = Nat.toDigits 10 n := rfl
  rw [e, digitsValue, Nat.toDigits, foldl_toDigitsCore (n + 1) n [] (by omega)]
  rfl

theorem timerText_data (newPyramidId : String) (newPort : Nat) :
    (timerText newPyramidId newPort).data
      = "requestPyramid('".data
          ++ (newPyramidId.data
            ++ quote :: Char.ofNat 44 :: Char.ofNat 32 :: ((toString newPort).data
              ++ [Char.ofNat 41])) := by
  simp only [timerText, String.data_append, List.append_assoc]
  rfl

/-- The timer text built for a plain id is the call of `requestPyramid` with that id
and that port. -/
theorem evalScript_timerText (newPyramidId : String) (newPort : Nat)
    (h : isPlainId newPyramidId = true) :
    evalScript (timerText newPyramidId newPort) = ScriptOutcome.call newPyramidId newPort := by
  have hall : ∀ c ∈ newPyramidId.data, isPlainChar c = true := by
    simpa [isPlainId, List.all_eq_true] using h
  have hq : isPlainChar quote = false := by decide
  unfold evalScript
  rw [timerText_data, stripStart_append]
  simp only [List.dropWhile_append_of_pos hall, List.takeWhile_append_of_pos hall,
    List.dropWhile_cons, List.takeWhile_cons, hq, Bool.false_eq_true, if_false, if_true,
    List.append_nil, secondArgument, List.getLast?_concat, List.dropLast_concat,
    digitsValue_toString, true_and, and_self]

/-! ## The halving loop -/

theorem halvingLoop_step (t obj : ℚ) (level : Int) (h : t < obj) (hl : 0 < level) :
    halvingLoop t obj level = halvingLoop t (obj / 2) (level - 1) := by
  rw [halvingLoop, if_pos ⟨h, hl⟩]

theorem halvingLoop_stop (t obj : ℚ) (level : Int) (h : ¬ (t < obj ∧ 0 < level)) :
    halvingLoop t obj level = ⟨obj, level⟩ := by
  rw [halvingLoop, if_neg h]

theorem halvingTrace_step (t obj : ℚ) (level : Int) (h : t < obj) (hl : 0 < level) :
    halvingTrace t obj level = ⟨obj, level⟩ :: halvingTrace t (obj / 2) (level - 1) := by
  rw [halvingTrace, if_pos ⟨h, hl⟩]

theorem halvingTrace_stop (t obj : ℚ) (level : Int) (h : ¬ (t < obj ∧ 0 < level)) :
    halvingTrace t obj level = [⟨obj, level⟩] := by
  rw [halvingTrace, if_neg h]

/-- The loop started at a level `n ≥ 0` runs some `j ≤ n` times: it halves `j`
times, every test before the last succeeded, and it stopped at level `0` or
at an objective not above the target. -/
theorem halvingLoop_run (t : ℚ) : ∀ (n : ℕ) (obj : ℚ), ∃ j : ℕ, j ≤ n ∧
    halvingLoop t obj n = ⟨obj / 2 ^ j, (n : Int) - j⟩ ∧
    halvingTrace t obj n
      = (List.range (j + 1)).map (fun (i : ℕ) => (⟨obj / 2 ^ i, (n : Int) - (i : Int)⟩ : LoopState)) ∧
    (∀ i < j, t < obj / 2 ^ i) ∧ (j = n ∨ obj / 2 ^ j ≤ t) := by
  intro n
  induction n with
  | zero =>
    intro obj
    refine ⟨0, le_refl _, ?_, ?_, ?_, Or.inl rfl⟩
    · rw [halvingLoop_stop _ _ _ (by simp)]; simp
    · rw [halvingTrace_stop _ _ _ (by simp)]; simp [List.range_succ]
    · intro i hi; omega
  | succ n ih =>
    intro obj
    by_cases h : t < obj
    · obtain ⟨j, hj, hloop, htrace, hbefore, hstop⟩ := ih (obj / 2)
      have hcast : ((n + 1 : ℕ) : Int) - 1 = (n : Int) := by push_cast; ring
      have hpos : (0 : Int) < ((n + 1 : ℕ) : Int) := by positivity
      refine ⟨j + 1, by omega, ?_, ?_, ?_, ?_⟩
      · rw [halvingLoop_step _ _ _ h hpos, hcast, hloop]
        congr 1
        · rw [pow_succ', div_div]
        · push_cast; ring
      · rw [halvingTrace_step _ _ _ h hpos, hcast, htrace]
        rw [List.range_succ_eq_map (j + 1)]
        simp only [List.map_cons, List.map_map, pow_zero, div_one, Nat.cast_zero, sub_zero]
        congr 1
        apply List.map_congr_left
        intro i _
        simp only [Function.comp, Nat.succ_eq_add_one]
        congr 1
        · rw [pow_succ', div_div]
        · push_cast; ring
      · intro i hi
        cases i with
        | zero => simpa using h
        | succ i =>
          have := hbefore i (by omega)
          rw [pow_succ', ← div_div]; exact this
      · rcases hstop with hstop | hstop
        · left; omega
        · right
          rw [pow_succ', ← div_div]; exact hstop
    · refine ⟨0, by omega, ?_, ?_, ?_, Or.inr ?_⟩
      · rw [halvingLoop_stop _ _ _ (fun hh => h hh.1)]; simp
      · rw [halvingTrace_stop _ _ _ (fun hh => h hh.1)]; simp [List.range_succ]
      · intro i hi; omega
      · simpa using not_lt.mp h

/-- The loop ends in the last state of its trace. -/
theorem halvingTrace_getLast (t : ℚ) (obj : ℚ) (level : Int) :
    (halvingTrace t obj level).getLast? = some (halvingLoop t obj level) := by
  induction obj, level using halvingLoop.induct t with
  | case1 obj level h ih =>
    rw [halvingTrace_step _ _ _ h.1 h.2, halvingLoop_step _ _ _ h.1 h.2,
      List.getLast?_cons, ih]
    rfl
  | case2 obj level h =>
    rw [halvingTrace_stop _ _ _ h, halvingLoop_stop _ _ _ h]; rfl

/-- The state `changeObjective` returns for a loaded pyramid and a target that is
not above the zero-level objective. -/
theorem changeObjective_loaded (b : Browser) (s : World) (z t : ℚ) (M : Int)
    (hl : Loaded s z M) (htz : t ≤ z) :
    (changeObjective b s t).effects
        = s.effects ++ [Effect.setZoom (halvingLoop t z M).level] ∧
      currentZoom (changeObjective b s t) = some (((halvingLoop t z M).level : Int) : ℚ) := by
  obtain ⟨hm, hv, hg, ho⟩ := hl
  obtain ⟨map, hmap⟩ := Option.ne_none_iff_exists'.mp hm
  obtain ⟨view, hview⟩ := Option.ne_none_iff_exists'.mp hv
  simp [changeObjective, hmap, hview, hg, ho, toNumber, not_lt.mpr htz, emit, currentZoom]

theorem evalScript_example : evalScript (timerText "p" 80) = ScriptOutcome.call "p" 80 := by
  decide

theorem loadedWorld_loaded (z : ℚ) (M : Int) : Loaded (loadedWorld z M) z M := by
  constructor <;>
    simp [loadedWorld, reached, loadedEvents, requestedEvents, exampleBrowser, examplePage,
      run, step, inititializeViewer, setPyramid, setTimeout, evalScript_example, requestPyramid,
      onReadyStateChange, initOpenLayers, showInformation, emit, settle, initialWorld,
      setInnerHTMLIfNamed, setVisibilityIfNamed, setInnerHTML, setVisibility,
      JsField.looseEqNull, JsField.toOption, bind_ok, bind_error]

/-! ## Reachable states -/

theorem sinceLastSetTimeout_append (effects : List Effect) (e : Effect) :
    sinceLastSetTimeout (effects ++ [e])
      = if e.isSetTimeout then [] else sinceLastSetTimeout effects ++ [e] := by
  unfold sinceLastSetTimeout
  rw [List.reverse_append]
  by_cases h : e.isSetTimeout
  · simp [h, List.takeWhile_cons]
  · simp [h, List.takeWhile_cons]

theorem sinceLastSetTimeout_append_list (effects extra : List Effect)
    (h : ∀ e ∈ extra, e.isSetTimeout = false) :
    sinceLastSetTimeout (effects ++ extra) = sinceLastSetTimeout effects ++ extra := by
  unfold sinceLastSetTimeout
  rw [List.reverse_append, List.takeWhile_append_of_pos, List.reverse_append,
    List.reverse_reverse]
  intro a ha
  simp [h a (List.mem_reverse.mp ha)]

/-- The variables that statements writing to the page and to the log leave alone. -/
theorem sameVariables_fields {s s' : World} (h : SameVariables s s') :
    s'.changingPyramid = s.changingPyramid ∧ s'.timers = s.timers ∧
      s'.requests = s.requests ∧ s'.openLayersMap = s.openLayersMap ∧
      s'.olView = s.olView ∧ s'.olTileGrid = s.olTileGrid ∧
      s'.currentPyramidInfo = s.currentPyramidInfo ∧
      s'.zeroLevelObjective = s.zeroLevelObjective ∧
      s'.pyramidErrorMessage = s.pyramidErrorMessage := by
  obtain ⟨d, l, rfl⟩ := h
  exact ⟨rfl, rfl, rfl, rfl, rfl, rfl, rfl, rfl, rfl⟩

/-- The configuration and the log that statements writing to the page leave alone. -/
theorem onlyPage_fields {s s' : World} (h : OnlyPage s s') :
    s'.effects = s.effects ∧ s'.mapTagName = s.mapTagName ∧
      s'.controlTagName = s.controlTagName ∧ s'.macroTagName = s.macroTagName ∧
      s'.informationTagName = s.informationTagName := by
  obtain ⟨d, rfl⟩ := h
  exact ⟨rfl, rfl, rfl, rfl, rfl⟩

theorem setPyramid_rejected (s : World) (newPyramidId : String) (newPort : Nat)
    (h : s.changingPyramid = true) : setPyramid s newPyramidId newPort = s := by
  rw [setPyramid, if_pos h]

/-- An accepted `setPyramid` call made while no map exists. -/
theorem setPyramid_without_map (s : World) (newPyramidId : String) (newPort : Nat)
    (h : s.changingPyramid = false) (hm : s.openLayersMap = none) :
    setPyramid s newPyramidId newPort
      = setTimeout { s with changingPyramid := true, pyramidErrorMessage := none }
          (timerText newPyramidId newPort) 100 := by
  simp [setPyramid, h, hm, bind_ok, settle]

/-- An accepted `setPyramid` call made while a map exists: the variables are reset,
then come the four writes to the page, then the call of `setTimeout`. -/
theorem setPyramid_with_map (s : World) (newPyramidId : String) (newPort : Nat)
    (h : s.changingPyramid = false) (hm : s.openLayersMap ≠ none) :
    setPyramid s newPyramidId newPort
      = settle
          ((setInnerHTML
              { s with changingPyramid := true, pyramidErrorMessage := none,
                       openLayersMap := none, olView := none, olTileGrid := none,
                       currentPyramidInfo := none }
              (toJsString s.mapTagName) "" >>= fun s4 =>
            setVisibilityIfNamed s4 s4.controlTagName "hidden" >>= fun s5 =>
            setVisibilityIfNamed s5 s5.macroTagName "hidden" >>= fun s6 =>
            setInnerHTMLIfNamed s6 s6.informationTagName
              ("Changing pyramid to " ++ newPyramidId ++ "...")) >>= fun s2 =>
            Except.ok (setTimeout s2 (timerText newPyramidId newPort) 100)) := by
  obtain ⟨map, hmap⟩ := Option.ne_none_iff_exists'.mp hm
  simp only [setPyramid, h, hmap, Bool.false_eq_true, if_false, bind_assoc]

theorem setPyramid_writes_pageOnly (s3 : World) (html : String) :
    PageOnly s3
      (setInnerHTML s3 (toJsString s3.mapTagName) "" >>= fun s4 =>
        setVisibilityIfNamed s4 s4.controlTagName "hidden" >>= fun s5 =>
        setVisibilityIfNamed s5 s5.macroTagName "hidden" >>= fun s6 =>
        setInnerHTMLIfNamed s6 s6.informationTagName html) :=
  pageOnly_bind (setInnerHTML_pageOnly _ _ _) fun _ _ =>
    pageOnly_bind (setVisibilityIfNamed_pageOnly _ _ _) fun _ _ =>
      pageOnly_bind (setVisibilityIfNamed_pageOnly _ _ _) fun _ _ =>
        setInnerHTMLIfNamed_pageOnly _ _ _

/-- The variables and the event loop after an accepted `setPyramid` call, whether
it ran to its end or threw at a write to the page. -/
theorem setPyramid_accepted (s : World) (newPyramidId : String) (newPort : Nat)
    (h : s.changingPyramid = false) :
    (setPyramid s newPyramidId newPort).changingPyramid = true ∧
      (setPyramid s newPyramidId newPort).requests = s.requests ∧
      (setPyramid s newPyramidId newPort).openLayersMap = none ∧
      (setPyramid s newPyramidId newPort).zeroLevelObjective = s.zeroLevelObjective ∧
      (((setPyramid s newPyramidId newPort).timers
            = s.timers ++ [timerText newPyramidId newPort] ∧
          sinceLastSetTimeout (setPyramid s newPyramidId newPort).effects = []) ∨
        (setPyramid s newPyramidId newPort).timers = s.timers) ∧
      (s.openLayersMap = none →
        (setPyramid s newPyramidId newPort).olView = s.olView ∧
        (setPyramid s newPyramidId newPort).olTileGrid = s.olTileGrid ∧
        (setPyramid s newPyramidId newPort).currentPyramidInfo = s.currentPyramidInfo) ∧
      (s.openLayersMap ≠ none →
        (setPyramid s newPyramidId newPort).olView = none ∧
        (setPyramid s newPyramidId newPort).olTileGrid = none ∧
        (setPyramid s newPyramidId newPort).currentPyramidInfo = none) := by
  by_cases hm : s.openLayersMap = none
  · rw [setPyramid_without_map s _ _ h hm]
    simp [setTimeout, emit, hm, sinceLastSetTimeout_append, Effect.isSetTimeout]
  · rw [setPyramid_with_map s _ _ h hm]
    have hp := setPyramid_writes_pageOnly
      { s with changingPyramid := true, pyramidErrorMessage := none,
               openLayersMap := none, olView := none, olTileGrid := none,
               currentPyramidInfo := none }
      ("Changing pyramid to " ++ newPyramidId ++ "...")
    revert hp
    generalize (setInnerHTML
        { s with changingPyramid := true, pyramidErrorMessage := none,
                 openLayersMap := none, olView := none, olTileGrid := none,
                 currentPyramidInfo := none }
        (toJsString s.mapTagName) "" >>= fun s4 =>
      setVisibilityIfNamed s4 s4.controlTagName "hidden" >>= fun s5 =>
      setVisibilityIfNamed s5 s5.macroTagName "hidden" >>= fun s6 =>
      setInnerHTMLIfNamed s6 s6.informationTagName
        ("Changing pyramid to " ++ newPyramidId ++ "...")) = r
    intro hp
    cases r with
    | error thrown =>
      obtain ⟨f1, f2, f3, f4, f5, f6, f7, f8, _⟩ :=
        sameVariables_fields (sameVariables_emit (onlyPage_sameVariables hp) (Effect.uncaught thrown.error))
      simp only [bind_error, settle]
      rw [f1, f2, f3, f4, f5, f6, f7, f8]
      simp [hm]
    | ok s6 =>
      obtain ⟨f1, f2, f3, f4, f5, f6, f7, f8, _⟩ := sameVariables_fields (onlyPage_sameVariables hp)
      simp only [bind_ok, settle, setTimeout, emit]
      simp [f1, f2, f3, f4, f5, f6, f7, f8, hm, sinceLastSetTimeout_append,
        Effect.isSetTimeout]

theorem consistent_initialWorld (useSSL : Bool) (dom : String → Option Element) :
    Consistent (initialWorld useSSL dom) := by
  constructor <;> simp [initialWorld, loads]

theorem consistent_inititializeViewer (s : World) (h m mc i c : Option String)
    (f : Option Nat) (hs : Consistent s) : Consistent (inititializeViewer s h m mc i c f) := by
  obtain ⟨h1, h2, h3, h4, h5, h6⟩ := hs
  exact ⟨h1, h2, h3, h4, h5, h6⟩

theorem consistent_setPyramid (s : World) (newPyramidId : String) (newPort : Nat)
    (hs : Consistent s) : Consistent (setPyramid s newPyramidId newPort) := by
  cases hc : s.changingPyramid with
  | true => rw [setPyramid_rejected s _ _ hc]; exact hs
  | false =>
    obtain ⟨h1, h2, h3, h4, h5, h6⟩ := hs
    obtain ⟨a1, a2, a3, _, a5, a6, a7⟩ := setPyramid_accepted s newPyramidId newPort hc
    have hloads : loads s = 0 := by
      have : ¬ loads s = 1 := fun h => by simp [h2 h] at hc
      omega
    have hle : loads (setPyramid s newPyramidId newPort) ≤ 1 := by
      rcases a5 with ⟨t, _⟩ | t <;>
        simp only [loads, t, a2, List.length_append, List.length_singleton] at hloads ⊢ <;>
        omega
    refine ⟨hle, fun _ => a1, ?_, ?_, fun _ => a3, ?_⟩
    · intro _
      by_cases hm : s.openLayersMap = none
      · obtain ⟨b1, b2, b3⟩ := a6 hm
        rw [b1, b2, b3]; exact h3 hm
      · exact a7 hm
    · intro hne; exact absurd a3 hne
    · intro hl
      rcases a5 with ⟨_, e⟩ | t
      · rw [e]; simp
      · simp only [loads, t, a2] at hloads hl
        omega

theorem changeObjective_fields (b : Browser) (s : World) (t : ℚ) :
    (changeObjective b s t).changingPyramid = s.changingPyramid ∧
      (changeObjective b s t).timers = s.timers ∧
      (changeObjective b s t).requests = s.requests ∧
      (changeObjective b s t).openLayersMap = s.openLayersMap ∧
      (changeObjective b s t).olTileGrid = s.olTileGrid ∧
      (changeObjective b s t).currentPyramidInfo = s.currentPyramidInfo ∧
      (changeObjective b s t).zeroLevelObjective = s.zeroLevelObjective ∧
      ((changeObjective b s t).olView = none ↔ s.olView = none) := by
  unfold changeObjective
  split
  · simp
  · split
    · simp [emit]
    · split
      · simp [emit]
      · simp only []
        split
        · simp [emit]
        · simp_all [emit]

theorem consistent_changeObjective (b : Browser) (s : World) (t : ℚ)
    (hs : Consistent s) : Consistent (changeObjective b s t) := by
  obtain ⟨h1, h2, h3, h4, h5, h6⟩ := hs
  obtain ⟨c1, c2, c3, c4, c5, c6, c7, c8⟩ := changeObjective_fields b s t
  have hl : loads (changeObjective b s t) = loads s := by simp [loads, c2, c3]
  refine ⟨by omega, by rw [c1, hl]; exact h2, ?_, ?_, by rw [c1, c4]; exact h5, ?_⟩
  · rw [c4, c5, c6, c8]; exact h3
  · rw [c4, c5, c7]
    intro hm
    obtain ⟨v1, v2, v3⟩ := h4 hm
    exact ⟨fun hv => v1 (c8.mp hv), v2, v3⟩
  · rw [hl]
    intro hc
    have e : changeObjective b s t = s := by simp [changeObjective, h5 (h2 hc)]
    rw [e]; exact h6 hc

theorem requestPyramid_fields (s : World) (newPyramidId : String) (newPort : Nat) :
    (requestPyramid s newPyramidId newPort).changingPyramid = s.changingPyramid ∧
      (requestPyramid s newPyramidId newPort).timers = s.timers ∧
      (requestPyramid s newPyramidId newPort).requests.length = s.requests.length + 1 ∧
      (requestPyramid s newPyramidId newPort).openLayersMap = s.openLayersMap ∧
      (requestPyramid s newPyramidId newPort).olView = s.olView ∧
      (requestPyramid s newPyramidId newPort).olTileGrid = s.olTileGrid ∧
      (requestPyramid s newPyramidId newPort).currentPyramidInfo = s.currentPyramidInfo ∧
      (requestPyramid s newPyramidId newPort).zeroLevelObjective = s.zeroLevelObjective ∧
      (Effect.initOpenLayers ∈ sinceLastSetTimeout (requestPyramid s newPyramidId newPort).effects
        → Effect.initOpenLayers ∈ sinceLastSetTimeout s.effects) := by
  unfold requestPyramid
  cases hcb : s.onSetPyramid
  · simp [hcb, emit, sinceLastSetTimeout_append, Effect.isSetTimeout]
  · simp only [hcb, emit, List.append_assoc]
    rw [sinceLastSetTimeout_append_list _ _ (by simp [Effect.isSetTimeout])]
    simp

theorem consistent_timeout (b : Browser) (s : World) (hs : Consistent s) :
    Consistent (step b s Event.timeout) := by
  obtain ⟨h1, h2, h3, h4, h5, h6⟩ := hs
  cases ht : s.timers with
  | nil => simp only [step, ht]; exact ⟨h1, h2, h3, h4, h5, h6⟩
  | cons code rest =>
    have hrest : rest.length = 0 ∧ s.requests.length = 0 := by
      simp only [loads, ht, List.length_cons] at h1; omega
    simp only [step, ht]
    cases hcode : evalScript code with
    | call newPyramidId newPort =>
      simp only []
      obtain ⟨r1, r2, r3, r4, r5, r6, r7, r8, r9⟩ :=
        requestPyramid_fields { s with timers := rest } newPyramidId newPort
      have hl : loads (requestPyramid { s with timers := rest } newPyramidId newPort) = loads s := by
        simp only [loads, r2, r3, ht, List.length_cons]
        omega
      refine ⟨by omega, by rw [r1, hl]; exact h2, by rw [r4, r5, r6, r7]; exact h3,
        by rw [r4, r5, r6, r8]; exact h4, by rw [r1, r4]; exact h5, ?_⟩
      rw [hl]
      intro hc hin
      exact h6 hc (r9 hin)
    | syntaxError =>
      simp only []
      have hl : loads (emit { s with timers := rest } (Effect.uncaught "SyntaxError")) = 0 := by
        simp only [loads, emit]; omega
      exact ⟨by omega, fun e => by omega, h3, h4, h5, fun e => by omega⟩
    | other =>
      exact ⟨h1, h2, h3, h4, h5, h6⟩

/-- The function `initOpenLayers` creates the tile grid, the view and the map, and
after that only writes to the page. -/
theorem initOpenLayers_pageOnly (b : Browser) (s : World) (info : PyramidInfo)
    (hinfo : s.currentPyramidInfo = some info) :
    ∃ grid view map,
      PageOnly
        (emit { s with olTileGrid := some grid, olView := some view, openLayersMap := some map }
          Effect.initOpenLayers)
        (initOpenLayers b s) := by
  simp only [initOpenLayers, hinfo]
  refine ⟨_, _, _, pageOnly_bind (setVisibilityIfNamed_pageOnly _ _ _) ?_⟩
  intro s2 _
  split
  · exact onlyPage_refl s2
  · exact pageOnly_bind (setVisibility_pageOnly _ _ _) fun s3 _ => setInnerHTML_pageOnly _ _ _

/-- The handler at `readyState` 4 with a status other than 200. -/
theorem onReadyStateChange_failure (b : Browser) (s : World) (xhr : XhrState)
    (h4 : xhr.readyState = 4) (hst : xhr.status ≠ 200) :
    SameVariables
        { s with changingPyramid := false, pyramidErrorMessage := some errorMessage,
                 currentPyramidInfo := none }
        (onReadyStateChange b s xhr) ∧
      (onReadyStateChange b s xhr).informationTagName = s.informationTagName ∧
      ((∀ tag, s.informationTagName = some tag → (s.dom tag).isSome = true) →
        (onReadyStateChange b s xhr).effects = s.effects ∧
        ∀ tag, s.informationTagName = some tag →
          innerHTMLOf (onReadyStateChange b s xhr) tag = some errorMessage) ∧
      Effect.initOpenLayers ∉ (onReadyStateChange b s xhr).effects.drop s.effects.length := by
  have e : onReadyStateChange b s xhr
      = settle (showInformation
          { s with changingPyramid := false, pyramidErrorMessage := some errorMessage,
                   currentPyramidInfo := none } errorMessage) := by
    simp [onReadyStateChange, h4, hst]
  rw [e]
  have hp := setInnerHTMLIfNamed_pageOnly
    { s with changingPyramid := false, pyramidErrorMessage := some errorMessage,
             currentPyramidInfo := none } s.informationTagName errorMessage
  refine ⟨pageOnly_settle hp, ?_, ?_, ?_⟩
  · unfold showInformation
    revert hp
    generalize setInnerHTMLIfNamed _ _ _ = r
    intro hp
    cases r with
    | error thrown => exact (onlyPage_fields hp).2.2.2.2
    | ok s' => exact (onlyPage_fields hp).2.2.2.2
  · intro hex
    obtain ⟨s', e1, e2, _, e4, _⟩ := setInnerHTMLIfNamed_ok
      { s with changingPyramid := false, pyramidErrorMessage := some errorMessage,
               currentPyramidInfo := none } s.informationTagName errorMessage hex
    unfold showInformation
    simp only [e1, settle]
    exact ⟨(onlyPage_fields e2).1, e4⟩
  · unfold showInformation
    revert hp
    generalize setInnerHTMLIfNamed _ _ _ = r
    intro hp
    cases r with
    | error thrown =>
      have := (onlyPage_fields hp).1
      simp only [settle, emit, this]
      simp
    | ok s' =>
      have := (onlyPage_fields hp).1
      simp only [settle, this]
      simp

/-- The handler at `readyState` 4 with status 200 and a body that does not parse. -/
theorem onReadyStateChange_syntaxError (b : Browser) (s : World) (xhr : XhrState)
    (h4 : xhr.readyState = 4) (hst : xhr.status = 200) (hp : xhr.parsed = none) :
    onReadyStateChange b s xhr
      = emit { s with changingPyramid := false } (Effect.uncaught "SyntaxError") := by
  simp [onReadyStateChange, h4, hst, hp, settle]

/-- The handler at `readyState` 4 with status 200 and a body that parses. -/
theorem onReadyStateChange_success (b : Browser) (s : World) (xhr : XhrState)
    (info : PyramidInfo)
    (h4 : xhr.readyState = 4) (hst : xhr.status = 200) (hp : xhr.parsed = some info) :
    ∃ grid view map,
      SameVariables
        { s with changingPyramid := false, currentPyramidInfo := some info,
                 zeroLevelObjective :=
                   if info.magnification.looseEqNull then some DEFAULT_OBJECTIVE
                   else info.magnification.toOption,
                 olTileGrid := some grid, olView := some view, openLayersMap := some map }
        (onReadyStateChange b s xhr) := by
  have e : onReadyStateChange b s xhr
      = settle (initOpenLayers b
          { s with changingPyramid := false, currentPyramidInfo := some info,
                   zeroLevelObjective :=
                     if info.magnification.looseEqNull then some DEFAULT_OBJECTIVE
                     else info.magnification.toOption } >>= fun s4 =>
          showInformation s4
            ("<p>Detected pyramid information:</p>" ++ "<pre>" ++ xhr.pretty ++ "</pre>")) := by
    simp [onReadyStateChange, h4, hst, hp]
  rw [e]
  obtain ⟨grid, view, map, hinit⟩ := initOpenLayers_pageOnly b
    { s with changingPyramid := false, currentPyramidInfo := some info,
             zeroLevelObjective :=
               if info.magnification.looseEqNull then some DEFAULT_OBJECTIVE
               else info.magnification.toOption } info rfl
  refine ⟨grid, view, map, ?_⟩
  have hp' := pageOnly_settle (pageOnly_bind hinit
    (fun s4 _ => setInnerHTMLIfNamed_pageOnly s4 s4.informationTagName
      ("<p>Detected pyramid information:</p>" ++ "<pre>" ++ xhr.pretty ++ "</pre>")))
  exact sameVariables_trans ⟨_, _, rfl⟩ hp'

theorem consistent_readyStateChange (b : Browser) (s : World) (index : Nat) (xhr : XhrState)
    (hs : Consistent s) : Consistent (step b s (Event.readyStateChange index xhr)) := by
  by_cases hi : index < s.requests.length
  · by_cases h4 : xhr.readyState = 4
    · obtain ⟨h1, h2, h3, h4', h5, h6⟩ := hs
      have hreq : s.requests.length = 1 ∧ s.timers.length = 0 := by
        simp only [loads] at h1; omega
      have hflag : s.changingPyramid = true := h2 (by simp only [loads]; omega)
      have hidx : index = 0 := by omega
      have hmap := h5 hflag
      obtain ⟨n1, n2, n3⟩ := h3 hmap
      simp only [step, hi, h4, if_true]
      by_cases hst : xhr.status = 200
      · cases hp : xhr.parsed with
        | none =>
          rw [onReadyStateChange_syntaxError b s xhr h4 hst hp]
          constructor <;>
            simp [emit, loads, List.length_eraseIdx, hidx, hreq.1, hreq.2, hmap, n1, n2, n3]
        | some info =>
          obtain ⟨grid, view, map, hsame⟩ := onReadyStateChange_success b s xhr info h4 hst hp
          obtain ⟨f1, f2, f3, f4, f5, f6, _, f8, _⟩ := (sameVariables_fields hsame)
          have hz : (onReadyStateChange b s xhr).zeroLevelObjective ≠ none := by
            rw [f8]
            cases info.magnification <;> simp [JsField.looseEqNull, JsField.toOption]
          constructor <;>
            simp [loads, List.length_eraseIdx, hidx, hreq.1, hreq.2, f1, f2, f3, f4, f5, f6, hz]
      · obtain ⟨hsame, _⟩ := onReadyStateChange_failure b s xhr h4 hst
        obtain ⟨f1, f2, f3, f4, f5, f6, f7, _⟩ := (sameVariables_fields hsame)
        constructor <;>
          simp [loads, List.length_eraseIdx, hidx, hreq.1, hreq.2, f1, f2, f3, f4, f5, f6, f7,
            hmap, n1, n2]
    · have e : onReadyStateChange b s xhr = s := by simp [onReadyStateChange, h4]
      simp only [step, hi, h4, if_true, if_false, e]
      exact hs
  · simp only [step, hi, if_false]
    exact hs

theorem consistent_step (b : Browser) (s : World) (e : Event) (hs : Consistent s) :
    Consistent (step b s e) := by
  cases e with
  | inititializeViewer h m mc i c f => exact consistent_inititializeViewer s h m mc i c f hs
  | setPyramid newPyramidId newPort => exact consistent_setPyramid s newPyramidId newPort hs
  | changeObjective t => exact consistent_changeObjective b s t hs
  | timeout => exact consistent_timeout b s hs
  | readyStateChange index xhr => exact consistent_readyStateChange b s index xhr hs

theorem consistent_run (b : Browser) (events : List Event) :
    ∀ s : World, Consistent s → Consistent (run b s events) := by
  induction events with
  | nil => intro s hs; exact hs
  | cons e rest ih => intro s hs; exact ih (step b s e) (consistent_step b s e hs)

theorem consistent_reached (b : Browser) (useSSL : Bool) (dom : String → Option Element)
    (events : List Event) : Consistent (reached b useSSL dom events) :=
  consistent_run b events _ (consistent_initialWorld useSSL dom)

/-- The log and the info panel after the handler ran at `readyState` 4 with a status
other than 200. -/
theorem onReadyStateChange_failure_page (b : Browser) (s : World) (xhr : XhrState)
    (h4 : xhr.readyState = 4) (hst : xhr.status ≠ 200) :
    ((onReadyStateChange b s xhr).effects = s.effects ∨
        (onReadyStateChange b s xhr).effects = s.effects ++ [Effect.uncaught "TypeError"]) ∧
      ((∀ tag, s.informationTagName = some tag → (s.dom tag).isSome = true) →
        (onReadyStateChange b s xhr).effects = s.effects) ∧
      (∀ tag, s.informationTagName = some tag →
        innerHTMLOf (onReadyStateChange b s xhr) tag
          = (s.dom tag).map (fun _ => errorMessage)) := by
  cases hi : s.informationTagName with
  | none =>
    simp [onReadyStateChange, h4, hst, showInformation, setInnerHTMLIfNamed, hi, settle]
  | some tag =>
    cases hd : s.dom tag with
    | none =>
      simp [onReadyStateChange, h4, hst, showInformation, setInnerHTMLIfNamed, setInnerHTML,
        hi, hd, settle, emit, innerHTMLOf]
    | some element =>
      simp [onReadyStateChange, h4, hst, showInformation, setInnerHTMLIfNamed, setInnerHTML,
        hi, hd, settle, innerHTMLOf]

/-- The page after an accepted `setPyramid` call made while a map exists, on a page
that has the elements the viewer was given. -/
theorem setPyramid_page (s : World) (newPyramidId : String) (newPort : Nat)
    (h : s.changingPyramid = false) (hm : s.openLayersMap ≠ none) (hex : ElementsExist s) :
    (setPyramid s newPyramidId newPort).timers = s.timers ++ [timerText newPyramidId newPort] ∧
      (setPyramid s newPyramidId newPort).effects
        = s.effects ++ [Effect.setTimeout (timerText newPyramidId newPort) 100] ∧
      (s.informationTagName ≠ some (toJsString s.mapTagName) →
        innerHTMLOf (setPyramid s newPyramidId newPort) (toJsString s.mapTagName) = some "") ∧
      (∀ tag, s.controlTagName = some tag →
        visibilityOf (setPyramid s newPyramidId newPort) tag = some "hidden") ∧
      (∀ tag, s.macroTagName = some tag →
        visibilityOf (setPyramid s newPyramidId newPort) tag = some "hidden") ∧
      (∀ tag, s.informationTagName = some tag →
        innerHTMLOf (setPyramid s newPyramidId newPort) tag
          = some ("Changing pyramid to " ++ newPyramidId ++ "...")) := by
  obtain ⟨xm, xc, xmc, xi⟩ := hex
  rw [setPyramid_with_map s _ _ h hm]
  obtain ⟨s4, e4, p4, x4, m4, _, v4⟩ := setInnerHTML_ok
    { s with changingPyramid := true, pyramidErrorMessage := none,
             openLayersMap := none, olView := none, olTileGrid := none,
             currentPyramidInfo := none } (toJsString s.mapTagName) "" xm
  obtain ⟨t4, tm4, tc4, tmc4, ti4⟩ := onlyPage_fields p4
  obtain ⟨s5, e5, p5, x5, c5, k5, m5, _⟩ := setVisibilityIfNamed_ok s4 s4.controlTagName "hidden"
    (fun tag e => by rw [x4]; exact xc tag (by rw [← e, tc4]))
  obtain ⟨t5, tm5, tc5, tmc5, ti5⟩ := onlyPage_fields p5
  obtain ⟨s6, e6, p6, x6, c6, k6, m6, _⟩ := setVisibilityIfNamed_ok s5 s5.macroTagName "hidden"
    (fun tag e => by rw [x5, x4]; exact xmc tag (by rw [← e, tmc5, tmc4]))
  obtain ⟨t6, tm6, tc6, tmc6, ti6⟩ := onlyPage_fields p6
  obtain ⟨s7, e7, p7, _, c7, o7, v7, _⟩ := setInnerHTMLIfNamed_ok s6 s6.informationTagName
    ("Changing pyramid to " ++ newPyramidId ++ "...")
    (fun tag e => by rw [x6, x5, x4]; exact xi tag (by rw [← e, ti6, ti5, ti4]))
  obtain ⟨t7, _⟩ := onlyPage_fields p7
  have hall := onlyPage_trans (onlyPage_trans (onlyPage_trans p4 p5) p6) p7
  obtain ⟨_, f2, _⟩ := sameVariables_fields (onlyPage_sameVariables hall)
  simp only [e4, e5, e6, e7, bind_ok, settle, setTimeout, emit, innerHTMLOf, visibilityOf]
  refine ⟨by rw [f2], by rw [t7, t6, t5, t4], ?_, ?_, ?_, ?_⟩
  · intro hne
    have := o7 (toJsString s.mapTagName) (by rw [ti6, ti5, ti4]; exact hne)
    simp only [innerHTMLOf] at this m6 m5 m4
    rw [this, m6, m5, m4]
  · intro tag hc
    have := c5 tag (by rw [tc4]; exact hc)
    have := k6 tag this
    simp only [visibilityOf] at this v7
    rw [v7, this]
  · intro tag hmc
    have := c6 tag (by rw [tmc5, tmc4]; exact hmc)
    simp only [visibilityOf] at this v7
    rw [v7, this]
  · intro tag hi
    have := c7 tag (by rw [ti6, ti5, ti4]; exact hi)
    simpa only [innerHTMLOf] using this

/-! ## Claims about loads -/

/-- C3: in every reached state with an outstanding request, when that request reaches
`readyState` 4 with a status other than 200, the handler leaves the info panel (when
one is configured; an id that names no element still names none) with exactly the
error text, `pyramidErrorMessage` set to it, `currentPyramidInfo`, `openLayersMap`,
`olView` and `olTileGrid` null, and `changingPyramid` false; it logs no action when the
info panel is there to be written, and `initOpenLayers` has not been called since the
`setPyramid` call that started the load. -/
theorem failed_load_leaves_no_viewport (b : Browser) (useSSL : Bool)
    (dom : String → Option Element) (events : List Event) (index : Nat) (xhr : XhrState)
    (hi : index < (reached b useSSL dom events).requests.length)
    (h4 : xhr.readyState = 4) (hst : xhr.status ≠ 200) :
    (∀ tag, (reached b useSSL dom events).informationTagName = some tag →
        innerHTMLOf (step b (reached b useSSL dom events) (Event.readyStateChange index xhr)) tag
          = ((reached b useSSL dom events).dom tag).map (fun _ =>
              "Error: cannot read pyramid information, maybe Java server not started or replies too slowly")) ∧
      (step b (reached b useSSL dom events) (Event.readyStateChange index xhr)).pyramidErrorMessage
        = some "Error: cannot read pyramid information, maybe Java server not started or replies too slowly" ∧
      (step b (reached b useSSL dom events) (Event.readyStateChange index xhr)).currentPyramidInfo
        = none ∧
      (step b (reached b useSSL dom events) (Event.readyStateChange index xhr)).openLayersMap
        = none ∧
      (step b (reached b useSSL dom events) (Event.readyStateChange index xhr)).olView = none ∧
      (step b (reached b useSSL dom events) (Event.readyStateChange index xhr)).olTileGrid
        = none ∧
      (step b (reached b useSSL dom events) (Event.readyStateChange index xhr)).changingPyramid
        = false ∧
      ((∀ tag, (reached b useSSL dom events).informationTagName = some tag →
          ((reached b useSSL dom events).dom tag).isSome = true) →
        (step b (reached b useSSL dom events) (Event.readyStateChange index xhr)).effects
          = (reached b useSSL dom events).effects) ∧
      Effect.initOpenLayers ∉ sinceLastSetTimeout
        (step b (reached b useSSL dom events) (Event.readyStateChange index xhr)).effects := by
  have hs := consistent_reached b useSSL dom events
  have hload : loads (reached b useSSL dom events) = 1 := by
    have := hs.atMostOne
    simp only [loads] at this ⊢
    omega
  have hmap := hs.loading (hs.flag hload)
  obtain ⟨n1, n2, _⟩ := hs.noMap hmap
  obtain ⟨hsame, _⟩ := onReadyStateChange_failure b (reached b useSSL dom events) xhr h4 hst
  obtain ⟨f1, _, _, f4, f5, f6, f7, _, f9⟩ := (sameVariables_fields hsame)
  obtain ⟨g1, g2, g3⟩ :=
    onReadyStateChange_failure_page b (reached b useSSL dom events) xhr h4 hst
  simp only [step, hi, h4, if_true]
  refine ⟨g3, f9, f7, by rw [f4]; exact hmap, by rw [f5]; exact n1, by rw [f6]; exact n2,
    f1, g2, ?_⟩
  show Effect.initOpenLayers ∉ sinceLastSetTimeout
    (onReadyStateChange b (reached b useSSL dom events) xhr).effects
  rcases g1 with e | e
  · rw [e]; exact hs.noInit hload
  · rw [e, sinceLastSetTimeout_append]
    simp only [Effect.isSetTimeout, Bool.false_eq_true, if_false, List.mem_append,
      List.mem_singleton, reduceCtorEq, or_false]
    exact hs.noInit hload

/-- Witness of C3: the request for pyramid `p` is answered with status 404. -/
theorem failed_load_leaves_no_viewport_witness :
    0 < (reached (exampleBrowser 0) false examplePage requestedEvents).requests.length ∧
      notFound.readyState = 4 ∧ notFound.status ≠ 200 ∧
      innerHTMLOf (step (exampleBrowser 0)
          (reached (exampleBrowser 0) false examplePage requestedEvents)
          (Event.readyStateChange 0 notFound)) "info"
        = ((reached (exampleBrowser 0) false examplePage requestedEvents).dom "info").map
            (fun _ =>
              "Error: cannot read pyramid information, maybe Java server not started or replies too slowly") ∧
      (step (exampleBrowser 0) (reached (exampleBrowser 0) false examplePage requestedEvents)
        (Event.readyStateChange 0 notFound)).openLayersMap = none :=
  ⟨by decide, rfl, by decide,
    (failed_load_leaves_no_viewport (exampleBrowser 0) false examplePage requestedEvents 0
      notFound (by decide) rfl (by decide)).1 "info" (by decide),
    (failed_load_leaves_no_viewport (exampleBrowser 0) false examplePage requestedEvents 0
      notFound (by decide) rfl (by decide)).2.2.2.1⟩

/-- C7, as amended: an accepted `setPyramid(id, port)` call made in a reached state
leaves `openLayersMap`, `olView`, `olTileGrid` and `currentPyramidInfo` null and no
request outstanding. When no map existed at the call, the page is left as it was and
exactly one timer is scheduled, with the text built from the id and the port. When a
map existed and the ids given to the viewer name elements of the page, exactly that
one timer is scheduled as well, the control and macro panels (when configured) are
hidden, the info panel (when configured) reads `Changing pyramid to <id>...`, and the
map container is blank unless the info panel is configured on the same element. For
an id without quote, backslash or line break the text of the timer is the call
`requestPyramid(id, port)`. -/
theorem accepted_setPyramid_clears_view (b : Browser) (useSSL : Bool)
    (dom : String → Option Element) (events : List Event) (newPyramidId : String)
    (newPort : Nat) (h : (reached b useSSL dom events).changingPyramid = false) :
    (setPyramid (reached b useSSL dom events) newPyramidId newPort).openLayersMap = none ∧
      (setPyramid (reached b useSSL dom events) newPyramidId newPort).olView = none ∧
      (setPyramid (reached b useSSL dom events) newPyramidId newPort).olTileGrid = none ∧
      (setPyramid (reached b useSSL dom events) newPyramidId newPort).currentPyramidInfo = none ∧
      (setPyramid (reached b useSSL dom events) newPyramidId newPort).requests = [] ∧
      ((reached b useSSL dom events).openLayersMap = none →
        (setPyramid (reached b useSSL dom events) newPyramidId newPort).dom
          = (reached b useSSL dom events).dom ∧
        (setPyramid (reached b useSSL dom events) newPyramidId newPort).timers
          = [timerText newPyramidId newPort] ∧
        (setPyramid (reached b useSSL dom events) newPyramidId newPort).effects
          = (reached b useSSL dom events).effects
              ++ [Effect.setTimeout (timerText newPyramidId newPort) 100]) ∧
      ((reached b useSSL dom events).openLayersMap ≠ none →
        ElementsExist (reached b useSSL dom events) →
        (setPyramid (reached b useSSL dom events) newPyramidId newPort).timers
          = [timerText newPyramidId newPort] ∧
        (setPyramid (reached b useSSL dom events) newPyramidId newPort).effects
          = (reached b useSSL dom events).effects
              ++ [Effect.setTimeout (timerText newPyramidId newPort) 100] ∧
        ((reached b useSSL dom events).informationTagName
            ≠ some (toJsString (reached b useSSL dom events).mapTagName) →
          innerHTMLOf (setPyramid (reached b useSSL dom events) newPyramidId newPort)
            (toJsString (reached b useSSL dom events).mapTagName) = some "") ∧
        (∀ tag, (reached b useSSL dom events).controlTagName = some tag →
          visibilityOf (setPyramid (reached b useSSL dom events) newPyramidId newPort) tag
            = some "hidden") ∧
        (∀ tag, (reached b useSSL dom events).macroTagName = some tag →
          visibilityOf (setPyramid (reached b useSSL dom events) newPyramidId newPort) tag
            = some "hidden") ∧
        (∀ tag, (reached b useSSL dom events).informationTagName = some tag →
          innerHTMLOf (setPyramid (reached b useSSL dom events) newPyramidId newPort) tag
            = some ("Changing pyramid to " ++ newPyramidId ++ "..."))) ∧
      (isPlainId newPyramidId = true →
        evalScript (timerText newPyramidId newPort)
          = ScriptOutcome.call newPyramidId newPort) := by
  have hs := consistent_reached b useSSL dom events
  have hs' := consistent_setPyramid _ newPyramidId newPort hs
  obtain ⟨_, a2, a3, _⟩ :=
    setPyramid_accepted (reached b useSSL dom events) newPyramidId newPort h
  obtain ⟨n1, n2, n3⟩ := hs'.noMap a3
  have hloads : loads (reached b useSSL dom events) = 0 := by
    have h1 := hs.atMostOne
    have h2 : ¬ loads (reached b useSSL dom events) = 1 := fun e => by
      simp [hs.flag e] at h
    omega
  have ht : (reached b useSSL dom events).timers = [] := by
    apply List.eq_nil_of_length_eq_zero
    simp only [loads] at hloads
    omega
  have hr : (reached b useSSL dom events).requests = [] := by
    apply List.eq_nil_of_length_eq_zero
    simp only [loads] at hloads
    omega
  rw [hr] at a2
  refine ⟨a3, n1, n2, n3, a2, ?_, ?_, evalScript_timerText newPyramidId newPort⟩
  · intro hm
    rw [setPyramid_without_map _ _ _ h hm]
    simp [setTimeout, emit, ht]
  · intro hm hex
    obtain ⟨p1, p2, p3, p4, p5, p6⟩ := setPyramid_page _ newPyramidId newPort h hm hex
    rw [ht] at p1
    exact ⟨p1, p2, p3, p4, p5, p6⟩

/-- C9, at the input on which the code fails: after `setPyramid` is called with the id
`a`, quote, `b` and port 80 and its timer has fired, the timer text
`requestPyramid('a'b', 80)` has thrown a `SyntaxError`: no timer is pending and no
request is outstanding, yet `changingPyramid` is true, so the flag is not true exactly
when a load exists, and a following `setPyramid` call is ignored. -/
theorem quoted_id_blocks_viewer :
    (reached (exampleBrowser 0) false examplePage quoteEvents).effects
        = [Effect.setTimeout "requestPyramid('a'b', 80)" 100, Effect.uncaught "SyntaxError"] ∧
      (reached (exampleBrowser 0) false examplePage quoteEvents).timers = [] ∧
      (reached (exampleBrowser 0) false examplePage quoteEvents).requests = [] ∧
      loads (reached (exampleBrowser 0) false examplePage quoteEvents) = 0 ∧
      (reached (exampleBrowser 0) false examplePage quoteEvents).changingPyramid = true ∧
      ¬ ((reached (exampleBrowser 0) false examplePage quoteEvents).changingPyramid = true
          ↔ loads (reached (exampleBrowser 0) false examplePage quoteEvents) = 1) ∧
      setPyramid (reached (exampleBrowser 0) false examplePage quoteEvents) "p" 80
        = reached (exampleBrowser 0) false examplePage quoteEvents := by
  refine ⟨by decide, by decide, by decide, by decide, by decide, by decide, ?_⟩
  exact setPyramid_rejected _ "p" 80 (by decide)

/-! ## Claims about `changeObjective` on a loaded pyramid -/

/-- C6: with a loaded pyramid of zero-level objective 40 and maximal zoom `M ≥ 3`,
`changeObjective(5)` runs the loop through the objectives 40, 20, 10, 5, executes
the loop body (one halving, one decrement) exactly 3 times and calls
`olView.setZoom(M - 3)`. -/
theorem changeObjective_40_to_5 (b : Browser) (s : World) (M : Int)
    (hl : Loaded s 40 M) (hM : 3 ≤ M) :
    (halvingTrace 5 40 M).map (fun st => st.objective) = [40, 20, 10, 5] ∧
      (halvingTrace 5 40 M).map (fun st => st.level) = [M, M - 1, M - 2, M - 3] ∧
      halvingIterations 5 40 M = 3 ∧
      (changeObjective b s 5).effects = s.effects ++ [Effect.setZoom (M - 3)] ∧
      currentZoom (changeObjective b s 5) = some (((M - 3 : Int)) : ℚ) := by
  have htrace : halvingTrace 5 40 M
      = [⟨40, M⟩, ⟨20, M - 1⟩, ⟨10, M - 2⟩, ⟨5, M - 3⟩] := by
    rw [halvingTrace_step 5 40 M (by norm_num) (by omega),
      halvingTrace_step 5 (40 / 2) (M - 1) (by norm_num) (by omega),
      halvingTrace_step 5 (40 / 2 / 2) (M - 1 - 1) (by norm_num) (by omega),
      halvingTrace_stop 5 (40 / 2 / 2 / 2) (M - 1 - 1 - 1) (by norm_num)]
    have e1 : M - 1 - 1 = M - 2 := by ring
    have e2 : M - 2 - 1 = M - 3 := by ring
    rw [e1, e2]
    norm_num
  have hloop : halvingLoop 5 40 M = ⟨5, M - 3⟩ := by
    have h := halvingTrace_getLast 5 40 M
    rw [htrace] at h
    simpa using h.symm
  obtain ⟨heff, hzoom⟩ := changeObjective_loaded b s 40 5 M hl (by norm_num)
  rw [hloop] at heff hzoom
  refine ⟨?_, ?_, ?_, heff, hzoom⟩
  · rw [htrace]; rfl
  · rw [htrace]; rfl
  · rw [halvingIterations, htrace]; rfl

/-- Witness of C6: maximal zoom 7. -/
theorem changeObjective_40_to_5_witness :
    (halvingTrace 5 40 7).map (fun st => st.objective) = [40, 20, 10, 5] ∧
      (halvingTrace 5 40 7).map (fun st => st.level) = [7, 7 - 1, 7 - 2, 7 - 3] ∧
      halvingIterations 5 40 7 = 3 ∧
      (changeObjective (exampleBrowser 7) (loadedWorld 40 7) 5).effects
        = (loadedWorld 40 7).effects ++ [Effect.setZoom (7 - 3)] ∧
      currentZoom (changeObjective (exampleBrowser 7) (loadedWorld 40 7) 5)
        = some (((7 - 3 : Int)) : ℚ) :=
  changeObjective_40_to_5 _ (loadedWorld 40 7) 7 (loadedWorld_loaded 40 7) (by decide)

/-- C1, as amended: for a loaded pyramid with zero-level objective `z > 0` and maximal
zoom `M ≥ 0` and a target `0 < t ≤ z`, `changeObjective(t)` returns, having called
`olView.setZoom(L)` for a level `L` in `[0, M]` that is the largest level of `[0, M]`
whose implied objective `z / 2 ^ (M - L)` is at most `t` when there is such a level,
and `0` when there is none. -/
theorem changeObjective_selects_largest_level (b : Browser) (s : World) (z t : ℚ) (M : Int)
    (hl : Loaded s z M) (_hz : 0 < z) (hM : 0 ≤ M) (_ht : 0 < t) (htz : t ≤ z) :
    ∃ L : Int,
      (changeObjective b s t).effects = s.effects ++ [Effect.setZoom L] ∧
      currentZoom (changeObjective b s t) = some (L : ℚ) ∧
      0 ≤ L ∧ L ≤ M ∧
      (IsGreatest {L' : Int | 0 ≤ L' ∧ L' ≤ M ∧ impliedObjective z M L' ≤ t} L ∨
        (L = 0 ∧ ∀ L' : Int, 0 ≤ L' → L' ≤ M → ¬ impliedObjective z M L' ≤ t)) := by
  obtain ⟨n, rfl⟩ := Int.eq_ofNat_of_zero_le hM
  obtain ⟨j, hj, hloop, _, hbefore, hstop⟩ := halvingLoop_run t n z
  obtain ⟨heff, hzoom⟩ := changeObjective_loaded b s z t n hl htz
  rw [hloop] at heff hzoom
  refine ⟨(n : Int) - j, heff, hzoom, by omega, by omega, ?_⟩
  have key : ∀ L' : Int, 0 ≤ L' → L' ≤ n → ((n : Int) - L').toNat < j →
      ¬ impliedObjective z n L' ≤ t := by
    intro L' _ _ hlt
    exact not_le.mpr (hbefore _ hlt)
  by_cases hle : z / 2 ^ j ≤ t
  · left
    refine ⟨⟨by omega, by omega, ?_⟩, ?_⟩
    · have e : ((n : Int) - ((n : Int) - j)).toNat = j := by omega
      simp only [impliedObjective, e]
      exact hle
    · intro L' hL'
      obtain ⟨h0, hn, himp⟩ := hL'
      by_contra hgt
      exact key L' h0 hn (by omega) himp
  · right
    have hjn : j = n := by
      rcases hstop with h | h
      · exact h
      · exact absurd h hle
    refine ⟨by omega, ?_⟩
    intro L' h0 hn himp
    by_cases hlt : ((n : Int) - L').toNat < j
    · exact key L' h0 hn hlt himp
    · have e : ((n : Int) - L').toNat = j := by omega
      simp only [impliedObjective, e] at himp
      exact hle himp

/-- Witness of C1 as amended: zero-level objective 40, maximal zoom 3, target 20. -/
theorem changeObjective_selects_largest_level_witness :
    ∃ L : Int,
      (changeObjective (exampleBrowser 3) (loadedWorld 40 3) 20).effects
        = (loadedWorld 40 3).effects ++ [Effect.setZoom L] ∧
      currentZoom (changeObjective (exampleBrowser 3) (loadedWorld 40 3) 20)
        = some (L : ℚ) ∧
      0 ≤ L ∧ L ≤ 3 ∧
      (IsGreatest {L' : Int | 0 ≤ L' ∧ L' ≤ 3 ∧ impliedObjective 40 3 L' ≤ 20} L ∨
        (L = 0 ∧ ∀ L' : Int, 0 ≤ L' → L' ≤ 3 → ¬ impliedObjective 40 3 L' ≤ 20)) :=
  changeObjective_selects_largest_level _ (loadedWorld 40 3) 40 20 3 (loadedWorld_loaded 40 3)
    (by norm_num) (by decide) (by norm_num) (by norm_num)

/-- Counterexample to C1 as stated: with zero-level objective 40, maximal zoom 3 and
target 20, `changeObjective` calls `olView.setZoom(2)`, although level 0 lies in
`[0, 3]`, has implied objective `40 / 2 ^ 3 = 5 ≤ 20` and is smaller than 2: the level
set is not the smallest one whose implied objective is at most the target. -/
theorem changeObjective_not_smallest_level :
    (changeObjective (exampleBrowser 3) (loadedWorld 40 3) 20).effects
        = (loadedWorld 40 3).effects ++ [Effect.setZoom 2] ∧
      currentZoom (changeObjective (exampleBrowser 3) (loadedWorld 40 3) 20)
        = some 2 ∧
      ¬ IsLeast {L : Int | 0 ≤ L ∧ L ≤ 3 ∧ impliedObjective 40 3 L ≤ 20} 2 := by
  have hloop : halvingLoop 20 40 3 = ⟨20, 2⟩ := by
    rw [halvingLoop_step 20 40 3 (by norm_num) (by decide),
      halvingLoop_stop 20 (40 / 2) (3 - 1) (by norm_num)]
    norm_num
  obtain ⟨heff, hzoom⟩ := changeObjective_loaded (exampleBrowser 3)
    (loadedWorld 40 3) 40 20 3 (loadedWorld_loaded 40 3) (by norm_num)
  rw [hloop] at heff hzoom
  refine ⟨heff, by simpa using hzoom, ?_⟩
  intro h
  have h0 : (0 : Int) ∈ {L : Int | 0 ≤ L ∧ L ≤ 3 ∧ impliedObjective 40 3 L ≤ 20} := by
    refine ⟨le_refl _, by decide, ?_⟩
    have e : ((3 : Int) - 0).toNat = 3 := rfl
    simp only [impliedObjective, e]
    norm_num
  have := h.2 h0
  omega

/-- For a positive target some number of halvings brings any objective down to it. -/
theorem exists_halvings_le (z t : ℚ) (ht : 0 < t) : ∃ k : ℕ, z / 2 ^ k ≤ t := by
  obtain ⟨k, hk⟩ := pow_unbounded_of_one_lt (z / t) (one_lt_two : (1 : ℚ) < 2)
  refine ⟨k, ?_⟩
  rw [div_le_iff₀ (by positivity)]
  rw [div_lt_iff₀ ht] at hk
  linarith

/-- The loop started at level `n ≥ 0` with a positive target runs `min n k` times,
`k` being the least number of halvings that brings the objective down to the target. -/
theorem halvingLoop_least (t : ℚ) (ht : 0 < t) (n : ℕ) (z : ℚ) :
    ∃ k : ℕ, IsLeast {k : ℕ | z / 2 ^ k ≤ t} k ∧
      halvingLoop t z n = ⟨z / 2 ^ (min n k), (n : Int) - (min n k : ℕ)⟩ ∧
      halvingIterations t z n = min n k := by
  have hex := exists_halvings_le z t ht
  refine ⟨Nat.find hex, ⟨Nat.find_spec hex, fun m hm => Nat.find_min' hex hm⟩, ?_⟩
  obtain ⟨j, hj, hloop, htrace, hbefore, hstop⟩ := halvingLoop_run t n z
  have hjk : j ≤ Nat.find hex := by
    by_contra hlt
    exact absurd (Nat.find_spec hex) (not_le.mpr (hbefore _ (not_le.mp hlt)))
  have hmin : min n (Nat.find hex) = j := by
    rcases hstop with h | h
    · omega
    · have := Nat.find_min' hex h
      omega
  rw [hmin]
  refine ⟨hloop, ?_⟩
  rw [halvingIterations, htrace]
  simp

/-- C10: for a loaded pyramid with zero-level objective `z > 0` and maximal zoom
`M ≥ 0` and a target `0 < t ≤ z`, the loop of `changeObjective` executes its body
exactly `min M k` times, `k` being the least natural number with `z / 2 ^ k ≤ t`, and
the call applies the zoom `M - min M k`, which lies in `[0, M]`; for a larger target
`t'` (still at most `z`) the applied zoom is at least as large. -/
theorem changeObjective_iterations (b : Browser) (s : World) (z t : ℚ) (M : Int)
    (hl : Loaded s z M) (_hz : 0 < z) (hM : 0 ≤ M) (ht : 0 < t) (htz : t ≤ z) :
    ∃ k : ℕ, IsLeast {k : ℕ | z / 2 ^ k ≤ t} k ∧
      halvingIterations t z M = min M.toNat k ∧
      (changeObjective b s t).effects
        = s.effects ++ [Effect.setZoom (M - (min M.toNat k : ℕ))] ∧
      currentZoom (changeObjective b s t) = some ((M - (min M.toNat k : ℕ) : Int) : ℚ) ∧
      0 ≤ M - (min M.toNat k : ℕ) ∧ M - (min M.toNat k : ℕ) ≤ M ∧
      ∀ t' : ℚ, t ≤ t' → t' ≤ z →
        ∃ k' : ℕ, IsLeast {k : ℕ | z / 2 ^ k ≤ t'} k' ∧
          (changeObjective b s t').effects
            = s.effects ++ [Effect.setZoom (M - (min M.toNat k' : ℕ))] ∧
          M - (min M.toNat k : ℕ) ≤ M - (min M.toNat k' : ℕ) := by
  obtain ⟨n, rfl⟩ := Int.eq_ofNat_of_zero_le hM
  obtain ⟨k, hk, hloop, hiter⟩ := halvingLoop_least t ht n z
  obtain ⟨heff, hzoom⟩ := changeObjective_loaded b s z t n hl htz
  rw [hloop] at heff hzoom
  simp only [Int.toNat_ofNat]
  refine ⟨k, hk, hiter, heff, hzoom, by omega, by omega, ?_⟩
  intro t' htt' ht'z
  obtain ⟨k', hk', hloop', _⟩ := halvingLoop_least t' (lt_of_lt_of_le ht htt') n z
  obtain ⟨heff', _⟩ := changeObjective_loaded b s z t' n hl ht'z
  rw [hloop'] at heff'
  refine ⟨k', hk', heff', ?_⟩
  have hkk' : k' ≤ k := hk'.2 (le_trans hk.1 htt')
  omega

/-- Witness of C10: zero-level objective 40, maximal zoom 2, target 5. -/
theorem changeObjective_iterations_witness :
    ∃ k : ℕ, IsLeast {k : ℕ | (40 : ℚ) / 2 ^ k ≤ 5} k ∧
      halvingIterations 5 40 2 = min (2 : Int).toNat k ∧
      (changeObjective (exampleBrowser 2) (loadedWorld 40 2) 5).effects
        = (loadedWorld 40 2).effects ++ [Effect.setZoom (2 - (min (2 : Int).toNat k : ℕ))] ∧
      currentZoom (changeObjective (exampleBrowser 2) (loadedWorld 40 2) 5)
        = some ((2 - (min (2 : Int).toNat k : ℕ) : Int) : ℚ) ∧
      0 ≤ (2 : Int) - (min (2 : Int).toNat k : ℕ) ∧
      (2 : Int) - (min (2 : Int).toNat k : ℕ) ≤ 2 ∧
      ∀ t' : ℚ, 5 ≤ t' → t' ≤ 40 →
        ∃ k' : ℕ, IsLeast {k : ℕ | (40 : ℚ) / 2 ^ k ≤ t'} k' ∧
          (changeObjective (exampleBrowser 2) (loadedWorld 40 2) t').effects
            = (loadedWorld 40 2).effects
                ++ [Effect.setZoom (2 - (min (2 : Int).toNat k' : ℕ))] ∧
          (2 : Int) - (min (2 : Int).toNat k : ℕ) ≤ 2 - (min (2 : Int).toNat k' : ℕ) :=
  changeObjective_iterations _ (loadedWorld 40 2) 40 5 2 (loadedWorld_loaded 40 2)
    (by norm_num) (by decide) (by norm_num) (by norm_num)

/-! ## Guards of `setPyramid` and `changeObjective` -/

/-- C2: while a load is in progress (`changingPyramid` is true) `setPyramid` returns
the state it was given: no module variable and no page element changes, no timer is
scheduled and no request is sent. -/
theorem setPyramid_while_loading (s : World) (newPyramidId : String) (newPort : Nat)
    (h : s.changingPyramid = true) :
    setPyramid s newPyramidId newPort = s ∧
      (setPyramid s newPyramidId newPort).dom = s.dom ∧
      (setPyramid s newPyramidId newPort).timers = s.timers ∧
      (setPyramid s newPyramidId newPort).requests = s.requests ∧
      (setPyramid s newPyramidId newPort).effects = s.effects := by
  have e : setPyramid s newPyramidId newPort = s := setPyramid_rejected s _ _ h
  rw [e]
  exact ⟨rfl, rfl, rfl, rfl, rfl⟩

/-- Witness of C2: a second call while the first load is pending. -/
theorem setPyramid_while_loading_witness :
    setPyramid loadingWorld "q" 81 = loadingWorld ∧
      (setPyramid loadingWorld "q" 81).dom = loadingWorld.dom ∧
      (setPyramid loadingWorld "q" 81).timers = loadingWorld.timers ∧
      (setPyramid loadingWorld "q" 81).requests = loadingWorld.requests ∧
      (setPyramid loadingWorld "q" 81).effects = loadingWorld.effects :=
  setPyramid_while_loading loadingWorld "q" 81 (by decide)

/-- C8: when no pyramid is loaded (`openLayersMap` is null) `changeObjective` returns
the state it was given: nothing changes, no alert is raised, no zoom is set. -/
theorem changeObjective_without_pyramid (b : Browser) (s : World) (newObjective : ℚ)
    (h : s.openLayersMap = none) :
    changeObjective b s newObjective = s ∧
      (changeObjective b s newObjective).effects = s.effects ∧
      (changeObjective b s newObjective).olView = s.olView := by
  have e : changeObjective b s newObjective = s := by
    simp [changeObjective, h]
  rw [e]
  exact ⟨rfl, rfl, rfl⟩

/-- Witness of C8: the freshly loaded script, target 20. -/
theorem changeObjective_without_pyramid_witness :
    changeObjective (exampleBrowser 0)
        (initialWorld false examplePage) 20
        = initialWorld false examplePage ∧
      (changeObjective (exampleBrowser 0)
        (initialWorld false examplePage) 20).effects
        = (initialWorld false examplePage).effects ∧
      (changeObjective (exampleBrowser 0)
        (initialWorld false examplePage) 20).olView
        = (initialWorld false examplePage).olView :=
  changeObjective_without_pyramid _ (initialWorld false examplePage) 20 rfl

/-- C4: for a loaded pyramid with zero-level objective `z` and any target `t`,
`changeObjective(t)` raises the alert `No magnification <t> at this image!` exactly
when `z < t`; and when it does, the state it returns differs from the given one by
that alert only: no module variable changes and `setZoom` is not called. -/
theorem changeObjective_alert_iff (b : Browser) (s : World) (z t : ℚ) (M : Int)
    (hl : Loaded s z M) :
    ((changeObjective b s t).effects
        = s.effects ++ [Effect.alert ("No magnification " ++ b.numberToString t
            ++ " at this image!")] ↔ z < t) ∧
      (z < t →
        changeObjective b s t
          = { s with effects := s.effects ++ [Effect.alert ("No magnification "
                ++ b.numberToString t ++ " at this image!")] } ∧
        (changeObjective b s t).olView = s.olView ∧
        ∀ L : Int, Effect.setZoom L ∉ (changeObjective b s t).effects.drop s.effects.length) ∧
      (¬ z < t →
        ∀ m : String, Effect.alert m ∉ (changeObjective b s t).effects.drop s.effects.length) := by
  have hgt : z < t → changeObjective b s t
      = { s with effects := s.effects ++ [Effect.alert ("No magnification "
            ++ b.numberToString t ++ " at this image!")] } := by
    intro hzt
    obtain ⟨hm, _, _, ho⟩ := hl
    obtain ⟨map, hmap⟩ := Option.ne_none_iff_exists'.mp hm
    simp [changeObjective, hmap, ho, toNumber, hzt, emit, noMagnificationMessage]
  refine ⟨⟨?_, fun hzt => by rw [hgt hzt]⟩, ?_, ?_⟩
  · intro heff
    by_contra hzt
    obtain ⟨heff', _⟩ := changeObjective_loaded b s z t M hl (not_lt.mp hzt)
    rw [heff'] at heff
    simp at heff
  · intro hzt
    rw [hgt hzt]
    refine ⟨rfl, rfl, ?_⟩
    intro L
    simp
  · intro hzt m
    obtain ⟨heff', _⟩ := changeObjective_loaded b s z t M hl (not_lt.mp hzt)
    rw [heff']
    simp

/-- Witness of C4: zero-level objective 40, maximal zoom 3, target 80. -/
theorem changeObjective_alert_iff_witness :
    ((changeObjective (exampleBrowser 3) (loadedWorld 40 3) 80).effects
        = (loadedWorld 40 3).effects ++ [Effect.alert ("No magnification "
            ++ (exampleBrowser 3).numberToString 80
            ++ " at this image!")] ↔ (40 : ℚ) < 80) ∧
      ((40 : ℚ) < 80 →
        changeObjective (exampleBrowser 3) (loadedWorld 40 3) 80
          = { loadedWorld 40 3 with effects := (loadedWorld 40 3).effects
                ++ [Effect.alert ("No magnification "
                ++ (exampleBrowser 3).numberToString 80
                ++ " at this image!")] } ∧
        (changeObjective (exampleBrowser 3) (loadedWorld 40 3) 80).olView
          = (loadedWorld 40 3).olView ∧
        ∀ L : Int, Effect.setZoom L ∉
          (changeObjective (exampleBrowser 3) (loadedWorld 40 3) 80).effects.drop
            (loadedWorld 40 3).effects.length) ∧
      (¬ (40 : ℚ) < 80 →
        ∀ m : String, Effect.alert m ∉
          (changeObjective (exampleBrowser 3) (loadedWorld 40 3) 80).effects.drop
            (loadedWorld 40 3).effects.length) :=
  changeObjective_alert_iff _ (loadedWorld 40 3) 40 80 3 (loadedWorld_loaded 40 3)

/-! ## The completion handler -/

/-- C5: when the request completes with status 200 and a body that parses, the handler
sets `zeroLevelObjective` to `DEFAULT_OBJECTIVE`, which is 40, if the body has no
`magnification` or has it `null`, and to the magnification `m` if the body carries a
non-null one. -/
theorem zeroLevelObjective_after_reply (b : Browser) (s : World) (xhr : XhrState)
    (info : PyramidInfo) (h4 : xhr.readyState = 4) (h200 : xhr.status = 200)
    (hp : xhr.parsed = some info) :
    DEFAULT_OBJECTIVE = 40 ∧
      (info.magnification = JsField.absent ∨ info.magnification = JsField.null →
        (onReadyStateChange b s xhr).zeroLevelObjective = some DEFAULT_OBJECTIVE) ∧
      (∀ m : ℚ, info.magnification = JsField.value m →
        (onReadyStateChange b s xhr).zeroLevelObjective = some m) := by
  have e : (onReadyStateChange b s xhr).zeroLevelObjective
      = if info.magnification.looseEqNull then some DEFAULT_OBJECTIVE
        else info.magnification.toOption := by
    obtain ⟨grid, view, map, hsame⟩ := onReadyStateChange_success b s xhr info h4 h200 hp
    exact (sameVariables_fields hsame).2.2.2.2.2.2.2.1
  refine ⟨rfl, ?_, ?_⟩
  · rintro (h | h) <;> rw [e, h] <;> rfl
  · intro m h
    rw [e, h]; rfl

/-- Witness of C5: the body `{zeroLevelDimX:1000, zeroLevelDimY:2000}` gives 40. -/
theorem zeroLevelObjective_after_reply_witness :
    (onReadyStateChange (exampleBrowser 3) loadingWorld
        ⟨4, 200, some ⟨1000, 2000, JsField.absent⟩, ""⟩).zeroLevelObjective = some 40 :=
  ((zeroLevelObjective_after_reply (exampleBrowser 3) loadingWorld
      ⟨4, 200, some ⟨1000, 2000, JsField.absent⟩, ""⟩ ⟨1000, 2000, JsField.absent⟩
      rfl rfl rfl).2.1 (Or.inl rfl))

theorem loadedWorld_elements (z : ℚ) (M : Int) :
    ElementsExist (reached (exampleBrowser M) false examplePage (loadedEvents z)) := by
  constructor <;>
    simp [reached, loadedEvents, requestedEvents, exampleBrowser, examplePage,
      run, step, inititializeViewer, setPyramid, setTimeout, evalScript_example, requestPyramid,
      onReadyStateChange, initOpenLayers, showInformation, emit, settle, initialWorld,
      setInnerHTMLIfNamed, setVisibilityIfNamed, setInnerHTML, setVisibility,
      JsField.looseEqNull, JsField.toOption, bind_ok, bind_error, toJsString,
      Function.update_apply]

/-- Witness of C7 as amended: pyramid `p` is loaded and the page asks for `q`. -/
theorem accepted_setPyramid_clears_view_witness :
    (reached (exampleBrowser 3) false examplePage (loadedEvents 40)).changingPyramid = false ∧
      (setPyramid (reached (exampleBrowser 3) false examplePage (loadedEvents 40))
        "q" 81).openLayersMap = none ∧
      (setPyramid (reached (exampleBrowser 3) false examplePage (loadedEvents 40)) "q" 81).timers
        = [timerText "q" 81] ∧
      innerHTMLOf (setPyramid (reached (exampleBrowser 3) false examplePage (loadedEvents 40))
        "q" 81) "info" = some ("Changing pyramid to " ++ "q" ++ "...") ∧
      evalScript (timerText "q" 81) = ScriptOutcome.call "q" 81 :=
  ⟨by decide,
    (accepted_setPyramid_clears_view (exampleBrowser 3) false examplePage (loadedEvents 40)
      "q" 81 (by decide)).1,
    ((accepted_setPyramid_clears_view (exampleBrowser 3) false examplePage (loadedEvents 40)
      "q" 81 (by decide)).2.2.2.2.2.2.1 (by decide) (loadedWorld_elements 40 3)).1,
    ((accepted_setPyramid_clears_view (exampleBrowser 3) false examplePage (loadedEvents 40)
      "q" 81 (by decide)).2.2.2.2.2.2.1 (by decide) (loadedWorld_elements 40 3)).2.2.2.2.2
        "info" (by decide),
    (accepted_setPyramid_clears_view (exampleBrowser 3) false examplePage (loadedEvents 40)
      "q" 81 (by decide)).2.2.2.2.2.2.2 (by decide)⟩

/-- Counterexample to C7 as stated: the first `setPyramid` call after the viewer has
been configured is accepted, yet on return the info panel does not read
`Changing pyramid to p...` and the control panel is not hidden: the page is as it
was. -/
theorem first_setPyramid_leaves_page :
    (reached (exampleBrowser 0) false examplePage
        [Event.inititializeViewer (some "localhost") (some "map") (some "macro") (some "info")
          (some "control") none]).changingPyramid = false ∧
      (reached (exampleBrowser 0) false examplePage
        [Event.inititializeViewer (some "localhost") (some "map") (some "macro") (some "info")
          (some "control") none]).informationTagName = some "info" ∧
      (reached (exampleBrowser 0) false examplePage
        [Event.inititializeViewer (some "localhost") (some "map") (some "macro") (some "info")
          (some "control") none]).controlTagName = some "control" ∧
      innerHTMLOf (setPyramid (reached (exampleBrowser 0) false examplePage
        [Event.inititializeViewer (some "localhost") (some "map") (some "macro") (some "info")
          (some "control") none]) "p" 80) "info" = some "" ∧
      innerHTMLOf (setPyramid (reached (exampleBrowser 0) false examplePage
        [Event.inititializeViewer (some "localhost") (some "map") (some "macro") (some "info")
          (some "control") none]) "p" 80) "info" ≠ some "Changing pyramid to p..." ∧
      visibilityOf (setPyramid (reached (exampleBrowser 0) false examplePage
        [Event.inititializeViewer (some "localhost") (some "map") (some "macro") (some "info")
          (some "control") none]) "p" 80) "control" = some "visible" ∧
      visibilityOf (setPyramid (reached (exampleBrowser 0) false examplePage
        [Event.inititializeViewer (some "localhost") (some "map") (some "macro") (some "info")
          (some "control") none]) "p" 80) "control" ≠ some "hidden" := by
  refine ⟨rfl, rfl, rfl, ?_, ?_, ?_, ?_⟩ <;> decide

end PyramidViewer
